import Mathlib

/-!
# Doom 2D, SDL2 platform layer (src/sdl2/main.c)

A shallow embedding of the platform layer: the display surface manager
(Y_set_videomode_opengl, Y_set_videomode_software, Y_resize_window,
Y_unset_videomode), the video mode list (init_videomode_list), the key
translator (sdl_to_key), the text decoder (utf8_to_wchar), the event pump
(poll_events) and one iteration of the frame loop (step).

The file-level statics of main.c (ticks, quit, window, context, surf, vlist)
are the fields of State.  Calls into SDL and into the engine collaborators
are recorded, in program order, in the trace field.  What SDL answers to a
creation request is an input of the embedded function (Alloc).  A failed
assert is the result none.
-/

namespace Doom2D

/-! ## Key translator -/

/-- Modelled from the spec: the engine key identifiers KEY_* of input.h, which is
not under src/.  Only the names used by sdl_to_key are listed; their numeric
values are unknown and enter the theorems as an arbitrary numbering. -/
inductive Key
  | KEY_UNKNOWN | KEY_0 | KEY_1 | KEY_2 | KEY_3 | KEY_4 | KEY_5 | KEY_6 | KEY_7 | KEY_8 | KEY_9
  | KEY_A | KEY_B | KEY_C | KEY_D | KEY_E | KEY_F | KEY_G | KEY_H | KEY_I | KEY_J | KEY_K
  | KEY_L | KEY_M | KEY_N | KEY_O | KEY_P | KEY_Q | KEY_R | KEY_S | KEY_T | KEY_U | KEY_V
  | KEY_W | KEY_X | KEY_Y | KEY_Z | KEY_RETURN | KEY_ESCAPE | KEY_BACKSPACE | KEY_TAB
  | KEY_SPACE | KEY_MINUS | KEY_EQUALS | KEY_LEFTBRACKET | KEY_RIGHTBRACKET | KEY_BACKSLASH
  | KEY_SEMICOLON | KEY_APOSTROPHE | KEY_GRAVE | KEY_COMMA | KEY_PERIOD | KEY_SLASH
  | KEY_CAPSLOCK | KEY_F1 | KEY_F2 | KEY_F3 | KEY_F4 | KEY_F5 | KEY_F6 | KEY_F7 | KEY_F8
  | KEY_F9 | KEY_F10 | KEY_F11 | KEY_F12 | KEY_PRINTSCREEN | KEY_SCROLLLOCK | KEY_PAUSE
  | KEY_INSERT | KEY_HOME | KEY_PAGEUP | KEY_DELETE | KEY_END | KEY_PAGEDOWN | KEY_RIGHT
  | KEY_LEFT | KEY_DOWN | KEY_UP | KEY_NUMLOCK | KEY_KP_DIVIDE | KEY_KP_MULTIPLY | KEY_KP_MINUS
  | KEY_KP_PLUS | KEY_KP_ENTER | KEY_KP_0 | KEY_KP_1 | KEY_KP_2 | KEY_KP_3 | KEY_KP_4 | KEY_KP_5
  | KEY_KP_6 | KEY_KP_7 | KEY_KP_8 | KEY_KP_9 | KEY_KP_PERIOD | KEY_SYSREQ | KEY_LCTRL
  | KEY_LSHIFT | KEY_LALT | KEY_LSUPER | KEY_RCTRL | KEY_RSHIFT | KEY_RALT | KEY_RSUPER
  deriving DecidableEq, Repr

/-! Scan codes of SDL_scancode.h (SDL2), for the cases of sdl_to_key. -/

@[match_pattern] def SDL_SCANCODE_0 : Int := 39
@[match_pattern] def SDL_SCANCODE_1 : Int := 30
@[match_pattern] def SDL_SCANCODE_2 : Int := 31
@[match_pattern] def SDL_SCANCODE_3 : Int := 32
@[match_pattern] def SDL_SCANCODE_4 : Int := 33
@[match_pattern] def SDL_SCANCODE_5 : Int := 34
@[match_pattern] def SDL_SCANCODE_6 : Int := 35
@[match_pattern] def SDL_SCANCODE_7 : Int := 36
@[match_pattern] def SDL_SCANCODE_8 : Int := 37
@[match_pattern] def SDL_SCANCODE_9 : Int := 38
@[match_pattern] def SDL_SCANCODE_A : Int := 4
@[match_pattern] def SDL_SCANCODE_B : Int := 5
@[match_pattern] def SDL_SCANCODE_C : Int := 6
@[match_pattern] def SDL_SCANCODE_D : Int := 7
@[match_pattern] def SDL_SCANCODE_E : Int := 8
@[match_pattern] def SDL_SCANCODE_F : Int := 9
@[match_pattern] def SDL_SCANCODE_G : Int := 10
@[match_pattern] def SDL_SCANCODE_H : Int := 11
@[match_pattern] def SDL_SCANCODE_I : Int := 12
@[match_pattern] def SDL_SCANCODE_J : Int := 13
@[match_pattern] def SDL_SCANCODE_K : Int := 14
@[match_pattern] def SDL_SCANCODE_L : Int := 15
@[match_pattern] def SDL_SCANCODE_M : Int := 16
@[match_pattern] def SDL_SCANCODE_N : Int := 17
@[match_pattern] def SDL_SCANCODE_O : Int := 18
@[match_pattern] def SDL_SCANCODE_P : Int := 19
@[match_pattern] def SDL_SCANCODE_Q : Int := 20
@[match_pattern] def SDL_SCANCODE_R : Int := 21
@[match_pattern] def SDL_SCANCODE_S : Int := 22
@[match_pattern] def SDL_SCANCODE_T : Int := 23
@[match_pattern] def SDL_SCANCODE_U : Int := 24
@[match_pattern] def SDL_SCANCODE_V : Int := 25
@[match_pattern] def SDL_SCANCODE_W : Int := 26
@[match_pattern] def SDL_SCANCODE_X : Int := 27
@[match_pattern] def SDL_SCANCODE_Y : Int := 28
@[match_pattern] def SDL_SCANCODE_Z : Int := 29
@[match_pattern] def SDL_SCANCODE_RETURN : Int := 40
@[match_pattern] def SDL_SCANCODE_ESCAPE : Int := 41
@[match_pattern] def SDL_SCANCODE_BACKSPACE : Int := 42
@[match_pattern] def SDL_SCANCODE_TAB : Int := 43
@[match_pattern] def SDL_SCANCODE_SPACE : Int := 44
@[match_pattern] def SDL_SCANCODE_MINUS : Int := 45
@[match_pattern] def SDL_SCANCODE_EQUALS : Int := 46
@[match_pattern] def SDL_SCANCODE_LEFTBRACKET : Int := 47
@[match_pattern] def SDL_SCANCODE_RIGHTBRACKET : Int := 48
@[match_pattern] def SDL_SCANCODE_BACKSLASH : Int := 49
@[match_pattern] def SDL_SCANCODE_SEMICOLON : Int := 51
@[match_pattern] def SDL_SCANCODE_APOSTROPHE : Int := 52
@[match_pattern] def SDL_SCANCODE_GRAVE : Int := 53
@[match_pattern] def SDL_SCANCODE_COMMA : Int := 54
@[match_pattern] def SDL_SCANCODE_PERIOD : Int := 55
@[match_pattern] def SDL_SCANCODE_SLASH : Int := 56
@[match_pattern] def SDL_SCANCODE_CAPSLOCK : Int := 57
@[match_pattern] def SDL_SCANCODE_F1 : Int := 58
@[match_pattern] def SDL_SCANCODE_F2 : Int := 59
@[match_pattern] def SDL_SCANCODE_F3 : Int := 60
@[match_pattern] def SDL_SCANCODE_F4 : Int := 61
@[match_pattern] def SDL_SCANCODE_F5 : Int := 62
@[match_pattern] def SDL_SCANCODE_F6 : Int := 63
@[match_pattern] def SDL_SCANCODE_F7 : Int := 64
@[match_pattern] def SDL_SCANCODE_F8 : Int := 65
@[match_pattern] def SDL_SCANCODE_F9 : Int := 66
@[match_pattern] def SDL_SCANCODE_F10 : Int := 67
@[match_pattern] def SDL_SCANCODE_F11 : Int := 68
@[match_pattern] def SDL_SCANCODE_F12 : Int := 69
@[match_pattern] def SDL_SCANCODE_PRINTSCREEN : Int := 70
@[match_pattern] def SDL_SCANCODE_SCROLLLOCK : Int := 71
@[match_pattern] def SDL_SCANCODE_PAUSE : Int := 72
@[match_pattern] def SDL_SCANCODE_INSERT : Int := 73
@[match_pattern] def SDL_SCANCODE_HOME : Int := 74
@[match_pattern] def SDL_SCANCODE_PAGEUP : Int := 75
@[match_pattern] def SDL_SCANCODE_DELETE : Int := 76
@[match_pattern] def SDL_SCANCODE_END : Int := 77
@[match_pattern] def SDL_SCANCODE_PAGEDOWN : Int := 78
@[match_pattern] def SDL_SCANCODE_RIGHT : Int := 79
@[match_pattern] def SDL_SCANCODE_LEFT : Int := 80
@[match_pattern] def SDL_SCANCODE_DOWN : Int := 81
@[match_pattern] def SDL_SCANCODE_UP : Int := 82
@[match_pattern] def SDL_SCANCODE_NUMLOCKCLEAR : Int := 83
@[match_pattern] def SDL_SCANCODE_KP_DIVIDE : Int := 84
@[match_pattern] def SDL_SCANCODE_KP_MULTIPLY : Int := 85
@[match_pattern] def SDL_SCANCODE_KP_MINUS : Int := 86
@[match_pattern] def SDL_SCANCODE_KP_PLUS : Int := 87
@[match_pattern] def SDL_SCANCODE_KP_ENTER : Int := 88
@[match_pattern] def SDL_SCANCODE_KP_0 : Int := 98
@[match_pattern] def SDL_SCANCODE_KP_1 : Int := 89
@[match_pattern] def SDL_SCANCODE_KP_2 : Int := 90
@[match_pattern] def SDL_SCANCODE_KP_3 : Int := 91
@[match_pattern] def SDL_SCANCODE_KP_4 : Int := 92
@[match_pattern] def SDL_SCANCODE_KP_5 : Int := 93
@[match_pattern] def SDL_SCANCODE_KP_6 : Int := 94
@[match_pattern] def SDL_SCANCODE_KP_7 : Int := 95
@[match_pattern] def SDL_SCANCODE_KP_8 : Int := 96
@[match_pattern] def SDL_SCANCODE_KP_9 : Int := 97
@[match_pattern] def SDL_SCANCODE_KP_PERIOD : Int := 99
@[match_pattern] def SDL_SCANCODE_SYSREQ : Int := 154
@[match_pattern] def SDL_SCANCODE_LCTRL : Int := 224
@[match_pattern] def SDL_SCANCODE_LSHIFT : Int := 225
@[match_pattern] def SDL_SCANCODE_LALT : Int := 226
@[match_pattern] def SDL_SCANCODE_LGUI : Int := 227
@[match_pattern] def SDL_SCANCODE_RCTRL : Int := 228
@[match_pattern] def SDL_SCANCODE_RSHIFT : Int := 229
@[match_pattern] def SDL_SCANCODE_RALT : Int := 230
@[match_pattern] def SDL_SCANCODE_RGUI : Int := 231

/-- The switch of sdl_to_key (main.c 388-496). -/
def sdl_to_key (code : Int) : Key :=
  match code with
  | SDL_SCANCODE_0 => Key.KEY_0
  | SDL_SCANCODE_1 => Key.KEY_1
  | SDL_SCANCODE_2 => Key.KEY_2
  | SDL_SCANCODE_3 => Key.KEY_3
  | SDL_SCANCODE_4 => Key.KEY_4
  | SDL_SCANCODE_5 => Key.KEY_5
  | SDL_SCANCODE_6 => Key.KEY_6
  | SDL_SCANCODE_7 => Key.KEY_7
  | SDL_SCANCODE_8 => Key.KEY_8
  | SDL_SCANCODE_9 => Key.KEY_9
  | SDL_SCANCODE_A => Key.KEY_A
  | SDL_SCANCODE_B => Key.KEY_B
  | SDL_SCANCODE_C => Key.KEY_C
  | SDL_SCANCODE_D => Key.KEY_D
  | SDL_SCANCODE_E => Key.KEY_E
  | SDL_SCANCODE_F => Key.KEY_F
  | SDL_SCANCODE_G => Key.KEY_G
  | SDL_SCANCODE_H => Key.KEY_H
  | SDL_SCANCODE_I => Key.KEY_I
  | SDL_SCANCODE_J => Key.KEY_J
  | SDL_SCANCODE_K => Key.KEY_K
  | SDL_SCANCODE_L => Key.KEY_L
  | SDL_SCANCODE_M => Key.KEY_M
  | SDL_SCANCODE_N => Key.KEY_N
  | SDL_SCANCODE_O => Key.KEY_O
  | SDL_SCANCODE_P => Key.KEY_P
  | SDL_SCANCODE_Q => Key.KEY_Q
  | SDL_SCANCODE_R => Key.KEY_R
  | SDL_SCANCODE_S => Key.KEY_S
  | SDL_SCANCODE_T => Key.KEY_T
  | SDL_SCANCODE_U => Key.KEY_U
  | SDL_SCANCODE_V => Key.KEY_V
  | SDL_SCANCODE_W => Key.KEY_W
  | SDL_SCANCODE_X => Key.KEY_X
  | SDL_SCANCODE_Y => Key.KEY_Y
  | SDL_SCANCODE_Z => Key.KEY_Z
  | SDL_SCANCODE_RETURN => Key.KEY_RETURN
  | SDL_SCANCODE_ESCAPE => Key.KEY_ESCAPE
  | SDL_SCANCODE_BACKSPACE => Key.KEY_BACKSPACE
  | SDL_SCANCODE_TAB => Key.KEY_TAB
  | SDL_SCANCODE_SPACE => Key.KEY_SPACE
  | SDL_SCANCODE_MINUS => Key.KEY_MINUS
  | SDL_SCANCODE_EQUALS => Key.KEY_EQUALS
  | SDL_SCANCODE_LEFTBRACKET => Key.KEY_LEFTBRACKET
  | SDL_SCANCODE_RIGHTBRACKET => Key.KEY_RIGHTBRACKET
  | SDL_SCANCODE_BACKSLASH => Key.KEY_BACKSLASH
  | SDL_SCANCODE_SEMICOLON => Key.KEY_SEMICOLON
  | SDL_SCANCODE_APOSTROPHE => Key.KEY_APOSTROPHE
  | SDL_SCANCODE_GRAVE => Key.KEY_GRAVE
  | SDL_SCANCODE_COMMA => Key.KEY_COMMA
  | SDL_SCANCODE_PERIOD => Key.KEY_PERIOD
  | SDL_SCANCODE_SLASH => Key.KEY_SLASH
  | SDL_SCANCODE_CAPSLOCK => Key.KEY_CAPSLOCK
  | SDL_SCANCODE_F1 => Key.KEY_F1
  | SDL_SCANCODE_F2 => Key.KEY_F2
  | SDL_SCANCODE_F3 => Key.KEY_F3
  | SDL_SCANCODE_F4 => Key.KEY_F4
  | SDL_SCANCODE_F5 => Key.KEY_F5
  | SDL_SCANCODE_F6 => Key.KEY_F6
  | SDL_SCANCODE_F7 => Key.KEY_F7
  | SDL_SCANCODE_F8 => Key.KEY_F8
  | SDL_SCANCODE_F9 => Key.KEY_F9
  | SDL_SCANCODE_F10 => Key.KEY_F10
  | SDL_SCANCODE_F11 => Key.KEY_F11
  | SDL_SCANCODE_F12 => Key.KEY_F12
  | SDL_SCANCODE_PRINTSCREEN => Key.KEY_PRINTSCREEN
  | SDL_SCANCODE_SCROLLLOCK => Key.KEY_SCROLLLOCK
  | SDL_SCANCODE_PAUSE => Key.KEY_PAUSE
  | SDL_SCANCODE_INSERT => Key.KEY_INSERT
  | SDL_SCANCODE_HOME => Key.KEY_HOME
  | SDL_SCANCODE_PAGEUP => Key.KEY_PAGEUP
  | SDL_SCANCODE_DELETE => Key.KEY_DELETE
  | SDL_SCANCODE_END => Key.KEY_END
  | SDL_SCANCODE_PAGEDOWN => Key.KEY_PAGEDOWN
  | SDL_SCANCODE_RIGHT => Key.KEY_RIGHT
  | SDL_SCANCODE_LEFT => Key.KEY_LEFT
  | SDL_SCANCODE_DOWN => Key.KEY_DOWN
  | SDL_SCANCODE_UP => Key.KEY_UP
  | SDL_SCANCODE_NUMLOCKCLEAR => Key.KEY_NUMLOCK
  | SDL_SCANCODE_KP_DIVIDE => Key.KEY_KP_DIVIDE
  | SDL_SCANCODE_KP_MULTIPLY => Key.KEY_KP_MULTIPLY
  | SDL_SCANCODE_KP_MINUS => Key.KEY_KP_MINUS
  | SDL_SCANCODE_KP_PLUS => Key.KEY_KP_PLUS
  | SDL_SCANCODE_KP_ENTER => Key.KEY_KP_ENTER
  | SDL_SCANCODE_KP_0 => Key.KEY_KP_0
  | SDL_SCANCODE_KP_1 => Key.KEY_KP_1
  | SDL_SCANCODE_KP_2 => Key.KEY_KP_2
  | SDL_SCANCODE_KP_3 => Key.KEY_KP_3
  | SDL_SCANCODE_KP_4 => Key.KEY_KP_4
  | SDL_SCANCODE_KP_5 => Key.KEY_KP_5
  | SDL_SCANCODE_KP_6 => Key.KEY_KP_6
  | SDL_SCANCODE_KP_7 => Key.KEY_KP_7
  | SDL_SCANCODE_KP_8 => Key.KEY_KP_8
  | SDL_SCANCODE_KP_9 => Key.KEY_KP_9
  | SDL_SCANCODE_KP_PERIOD => Key.KEY_KP_PERIOD
  | SDL_SCANCODE_SYSREQ => Key.KEY_SYSREQ
  | SDL_SCANCODE_LCTRL => Key.KEY_LCTRL
  | SDL_SCANCODE_LSHIFT => Key.KEY_LSHIFT
  | SDL_SCANCODE_LALT => Key.KEY_LALT
  | SDL_SCANCODE_LGUI => Key.KEY_LSUPER
  | SDL_SCANCODE_RCTRL => Key.KEY_RCTRL
  | SDL_SCANCODE_RSHIFT => Key.KEY_RSHIFT
  | SDL_SCANCODE_RALT => Key.KEY_RALT
  | SDL_SCANCODE_RGUI => Key.KEY_RSUPER
  | _ => Key.KEY_UNKNOWN

/-- The scan codes sdl_to_key has a case for, in the order of the switch. -/
def sdl_to_key_cases : List Int :=
  [SDL_SCANCODE_0, SDL_SCANCODE_1, SDL_SCANCODE_2, SDL_SCANCODE_3, SDL_SCANCODE_4,
   SDL_SCANCODE_5, SDL_SCANCODE_6, SDL_SCANCODE_7, SDL_SCANCODE_8, SDL_SCANCODE_9,
   SDL_SCANCODE_A, SDL_SCANCODE_B, SDL_SCANCODE_C, SDL_SCANCODE_D, SDL_SCANCODE_E,
   SDL_SCANCODE_F, SDL_SCANCODE_G, SDL_SCANCODE_H, SDL_SCANCODE_I, SDL_SCANCODE_J,
   SDL_SCANCODE_K, SDL_SCANCODE_L, SDL_SCANCODE_M, SDL_SCANCODE_N, SDL_SCANCODE_O,
   SDL_SCANCODE_P, SDL_SCANCODE_Q, SDL_SCANCODE_R, SDL_SCANCODE_S, SDL_SCANCODE_T,
   SDL_SCANCODE_U, SDL_SCANCODE_V, SDL_SCANCODE_W, SDL_SCANCODE_X, SDL_SCANCODE_Y,
   SDL_SCANCODE_Z, SDL_SCANCODE_RETURN, SDL_SCANCODE_ESCAPE, SDL_SCANCODE_BACKSPACE,
   SDL_SCANCODE_TAB, SDL_SCANCODE_SPACE, SDL_SCANCODE_MINUS, SDL_SCANCODE_EQUALS,
   SDL_SCANCODE_LEFTBRACKET, SDL_SCANCODE_RIGHTBRACKET, SDL_SCANCODE_BACKSLASH,
   SDL_SCANCODE_SEMICOLON, SDL_SCANCODE_APOSTROPHE, SDL_SCANCODE_GRAVE, SDL_SCANCODE_COMMA,
   SDL_SCANCODE_PERIOD, SDL_SCANCODE_SLASH, SDL_SCANCODE_CAPSLOCK, SDL_SCANCODE_F1,
   SDL_SCANCODE_F2, SDL_SCANCODE_F3, SDL_SCANCODE_F4, SDL_SCANCODE_F5, SDL_SCANCODE_F6,
   SDL_SCANCODE_F7, SDL_SCANCODE_F8, SDL_SCANCODE_F9, SDL_SCANCODE_F10, SDL_SCANCODE_F11,
   SDL_SCANCODE_F12, SDL_SCANCODE_PRINTSCREEN, SDL_SCANCODE_SCROLLLOCK, SDL_SCANCODE_PAUSE,
   SDL_SCANCODE_INSERT, SDL_SCANCODE_HOME, SDL_SCANCODE_PAGEUP, SDL_SCANCODE_DELETE,
   SDL_SCANCODE_END, SDL_SCANCODE_PAGEDOWN, SDL_SCANCODE_RIGHT, SDL_SCANCODE_LEFT,
   SDL_SCANCODE_DOWN, SDL_SCANCODE_UP, SDL_SCANCODE_NUMLOCKCLEAR, SDL_SCANCODE_KP_DIVIDE,
   SDL_SCANCODE_KP_MULTIPLY, SDL_SCANCODE_KP_MINUS, SDL_SCANCODE_KP_PLUS, SDL_SCANCODE_KP_ENTER,
   SDL_SCANCODE_KP_0, SDL_SCANCODE_KP_1, SDL_SCANCODE_KP_2, SDL_SCANCODE_KP_3, SDL_SCANCODE_KP_4,
   SDL_SCANCODE_KP_5, SDL_SCANCODE_KP_6, SDL_SCANCODE_KP_7, SDL_SCANCODE_KP_8, SDL_SCANCODE_KP_9,
   SDL_SCANCODE_KP_PERIOD, SDL_SCANCODE_SYSREQ, SDL_SCANCODE_LCTRL, SDL_SCANCODE_LSHIFT,
   SDL_SCANCODE_LALT, SDL_SCANCODE_LGUI, SDL_SCANCODE_RCTRL, SDL_SCANCODE_RSHIFT,
   SDL_SCANCODE_RALT, SDL_SCANCODE_RGUI]

/-! ## Text decoder -/

/-- The decoder utf8_to_wchar (main.c 509-524) over a byte buffer s.  A byte is
read with Option-returning indexing, at the point where the C expression first
evaluates it (the operator && short-circuits); a read outside the buffer makes
the result none.  The result is the returned int together with the indices
that were read, in the order of their first read. -/
def utf8_to_wchar (s : List Nat) : Option (Int × List Nat) :=
  match (s[0]? : Option Nat) with
  | none => none
  | some s0 =>
    if s0 < 0x80 then
      some ((s0 : Int), [0])
    else if s0 < 0xE0 then
      if (s0 : Int) - 192 ≥ 0 then
        match (s[1]? : Option Nat) with
        | none => none
        | some s1 =>
          if s1 ≥ 0x80 ∧ s1 < 0xE0 then
            some (((s0 : Int) - 192) * 64 + (s1 : Int) - 128, [0, 1])
          else
            some (0, [0, 1])
      else
        some (0, [0])
    else if s0 < 0xF0 then
      match (s[1]? : Option Nat) with
      | none => none
      | some s1 =>
        if s1 ≥ 0x80 ∧ s1 < 0xE0 then
          match (s[2]? : Option Nat) with
          | none => none
          | some s2 =>
            if s2 ≥ 0x80 ∧ s2 < 0xE0 then
              some ((((s0 : Int) - 224) * 64 + (s1 : Int) - 128) * 64 + (s2 : Int) - 128, [0, 1, 2])
            else
              some (0, [0, 1, 2])
        else
          some (0, [0, 1])
    else
      some (0, [0])

/-! ## SDL objects and the statics of main.c -/

/-- An SDL_Color of SDL2: four Uint8 channels. -/
structure SDL_Color where
  r : Nat
  g : Nat
  b : Nat
  a : Nat
  deriving DecidableEq, Repr

/-- The palette of an 8-bit surface: SDL allocates 1 << 8 = 256 colours for the
format of a surface made with depth 8, the only depth main.c asks for. -/
abbrev SDL_Palette := { colors : List SDL_Color // colors.length = 256 }

/-- An 8-bit SDL_Surface: the object (id), its size and format->palette. -/
structure SDL_Surface where
  id : Nat
  w : Int
  h : Int
  palette : SDL_Palette
  deriving DecidableEq

/-- An SDL_Window: the object (id, also its window ID), its size and the
flags main.c sets. -/
structure SDL_Window where
  id : Nat
  w : Int
  h : Int
  opengl : Bool
  fullscreen : Bool
  deriving DecidableEq, Repr

/-- A videomode_size_t, with the fields main.c uses (its header is not under
src/): one (w, h) pair. -/
structure videomode_size_t where
  w : Int
  h : Int
  deriving DecidableEq, Repr

/-- A videomode_t, with the fields main.c uses (its header is not under src/): n
and the block modes points to (none for NULL). -/
structure videomode_t where
  n : Int
  modes : Option (List videomode_size_t)
  deriving DecidableEq, Repr

/-- Calls into SDL and into the engine collaborators, with their arguments
and, for a creation, what SDL returned (none for NULL). -/
inductive Call
  | SDL_CreateWindow (w h : Int) (opengl fullscreen : Bool) (result : Option Nat)
  | SDL_GL_CreateContext (win : Nat) (result : Option Nat)
  | SDL_CreateRGBSurface (w h : Int) (result : Option Nat)
  | SDL_SetPaletteColors (surf : Nat)
  | SDL_FreeSurface (surf : Nat)
  | SDL_GL_MakeCurrent (win : Nat) (ctx : Option Nat)
  | SDL_GL_DeleteContext (ctx : Nat)
  | SDL_DestroyWindow (win : Nat)
  | SDL_SetWindowSize (win : Nat) (w h : Int)
  | SDL_SetWindowFullscreen (win : Nat) (yes : Bool)
  | logo_error
  | R_set_videomode (w h fullscreen : Int)
  | I_press (key : Key) (down : Bool)
  | GM_key (key : Key) (down : Bool)
  | GM_input (ch : Int)
  | MUS_update
  | G_act
  | R_draw
  deriving DecidableEq, Repr

/-- The statics of main.c (lines 47-52) and the trace of calls made so far. -/
structure State where
  ticks : Nat
  quit : Int
  window : Option SDL_Window
  context : Option Nat
  surf : Option SDL_Surface
  vlist : videomode_t
  trace : List Call

/-- The statics at program start: zero and NULL, no call made. -/
def State.init : State :=
  { ticks := 0, quit := 0, window := none, context := none, surf := none,
    vlist := { n := 0, modes := none }, trace := [] }

/-- What SDL returns to the creation requests of one mode-set call: the new
window, GL context and surface, or none for NULL. -/
structure Alloc where
  win : Option Nat
  ctx : Option Nat
  surf : Option Nat
  deriving DecidableEq, Repr

/-- Record one call in the trace. -/
def call (c : Call) (st : State) : State :=
  { st with trace := st.trace ++ [c] }

/-- The palette SDL allocates for a new 8-bit surface: 256 entries, all white. -/
def SDL_AllocPalette : SDL_Palette :=
  ⟨List.replicate 256 ⟨255, 255, 255, 255⟩, List.length_replicate 256 _⟩

/-- The surface SDL_CreateRGBSurface(0, w, h, 8, 0, 0, 0, 0) returns: size
(w, h) and a newly allocated palette; NULL when SDL has none. -/
def SDL_CreateRGBSurface (w h : Int) (result : Option Nat) : Option SDL_Surface :=
  match result with
  | some id => some { id := id, w := w, h := h, palette := SDL_AllocPalette }
  | none => none

/-- SDL_SetPaletteColors(palette, colors, firstcolor, ncolors): the entries
firstcolor .. firstcolor + ncolors - 1 of the palette are overwritten with
colors[0 ..], the others are kept. -/
def SDL_SetPaletteColors (palette : SDL_Palette) (colors : List SDL_Color)
    (firstcolor ncolors : Nat) : SDL_Palette :=
  ⟨List.ofFn (fun i : Fin 256 =>
      if firstcolor ≤ i.val ∧ i.val < firstcolor + ncolors then
        colors.getD (i.val - firstcolor) (palette.val.getD i.val ⟨0, 0, 0, 0⟩)
      else palette.val.getD i.val ⟨0, 0, 0, 0⟩),
   List.length_ofFn _⟩

/-! ## Display surface manager -/

/-- The function Y_set_fullscreen (main.c 318-322). -/
def Y_set_fullscreen (yes : Int) (st : State) : State :=
  match st.window with
  | some win =>
    call (Call.SDL_SetWindowFullscreen win.id (decide (yes ≠ 0)))
      { st with window := some { win with fullscreen := decide (yes ≠ 0) } }
  | none => st

/-- The function Y_get_fullscreen (main.c 324-326). -/
def Y_get_fullscreen (st : State) : Int :=
  match st.window with
  | some win => if win.fullscreen then 1 else 0
  | none => 0

/-- The function Y_unset_videomode (main.c 260-274). -/
def Y_unset_videomode (st : State) : State :=
  match st.window with
  | some win =>
    let st1 :=
      match st.context with
      | some ctx =>
        { call (Call.SDL_GL_DeleteContext ctx) (call (Call.SDL_GL_MakeCurrent win.id none) st)
          with context := none }
      | none => st
    let st2 :=
      match st1.surf with
      | some s => { call (Call.SDL_FreeSurface s.id) st1 with surf := none }
      | none => st1
    { call (Call.SDL_DestroyWindow win.id) st2 with window := none }
  | none => st

/-- The function Y_resize_window (main.c 151-168); none is a failed assert. -/
def Y_resize_window (w h fullscreen : Int) (env : Alloc) (st : State) : Option (Int × State) :=
  if ¬ (w > 0) then none
  else if ¬ (h > 0) then none
  else
    match st.window with
    | none => none
    | some win =>
      let st1 :=
        match st.surf with
        | some surf =>
          if surf.w ≠ w ∨ surf.h ≠ h then
            let st0 := call (Call.SDL_CreateRGBSurface w h env.surf) st
            match SDL_CreateRGBSurface w h env.surf with
            | some s =>
              let s1 := { s with palette :=
                SDL_SetPaletteColors s.palette surf.palette.val 0 surf.palette.val.length }
              { call (Call.SDL_FreeSurface surf.id) (call (Call.SDL_SetPaletteColors s.id) st0)
                with surf := some s1 }
            | none => st0
          else st
        | none => st
      let st2 := { call (Call.SDL_SetWindowSize win.id w h) st1
                   with window := some { win with w := w, h := h } }
      some (1, Y_set_fullscreen fullscreen st2)

/-- The function Y_set_videomode_opengl (main.c 170-212); none is a failed
assert.  The SDL_GL_SetAttribute calls are left out. -/
def Y_set_videomode_opengl (w h fullscreen : Int) (env : Alloc) (st : State) :
    Option (Int × State) :=
  if ¬ (w > 0) then none
  else if ¬ (h > 0) then none
  else if st.window ≠ none ∧ st.context ≠ none then
    match Y_resize_window w h fullscreen env st with
    | none => none
    | some (_, st1) =>
      match st1.window with
      | some _ => some (1, st1)
      | none => some (0, call Call.logo_error st1)
  else
    let st1 := call (Call.SDL_CreateWindow w h true (decide (fullscreen ≠ 0)) env.win) st
    match env.win with
    | some win =>
      let st2 := call (Call.SDL_GL_CreateContext win env.ctx) st1
      match env.ctx with
      | some ctx =>
        let st3 := Y_unset_videomode st2
        let st4 := { st3 with
          window := some { id := win, w := w, h := h, opengl := true,
                           fullscreen := decide (fullscreen ≠ 0) },
          context := some ctx }
        some (1, call (Call.SDL_GL_MakeCurrent win (some ctx)) st4)
      | none =>
        some (0, call Call.logo_error (call (Call.SDL_DestroyWindow win) st2))
    | none => some (0, call Call.logo_error st1)

/-- The function Y_set_videomode_software (main.c 214-245); none is a failed
assert. -/
def Y_set_videomode_software (w h fullscreen : Int) (env : Alloc) (st : State) :
    Option (Int × State) :=
  if ¬ (w > 0) then none
  else if ¬ (h > 0) then none
  else if st.window ≠ none ∧ st.surf ≠ none then
    match Y_resize_window w h fullscreen env st with
    | none => none
    | some (_, st1) =>
      match st1.window with
      | some _ => some (1, st1)
      | none => some (0, call Call.logo_error st1)
  else
    let st1 := call (Call.SDL_CreateWindow w h false (decide (fullscreen ≠ 0)) env.win) st
    match env.win with
    | some win =>
      let st2 := call (Call.SDL_CreateRGBSurface w h env.surf) st1
      match SDL_CreateRGBSurface w h env.surf with
      | some s =>
        let st3 := Y_unset_videomode st2
        some (1, { st3 with
          window := some { id := win, w := w, h := h, opengl := false,
                           fullscreen := decide (fullscreen ≠ 0) },
          surf := some s })
      | none =>
        some (0, call Call.logo_error (call (Call.SDL_DestroyWindow win) st2))
    | none => some (0, call Call.logo_error st1)

/-! ## Video mode list -/

/-- The inner while loop of init_videomode_list (main.c 291-294), entered with
the current k: k is advanced while k < j and the mode m differs from modes[k]
in w or in h; the final k is returned. -/
def scan_modes (modes : List videomode_size_t) (m : videomode_size_t) (j k : Nat) : Nat :=
  if k < j ∧ (m.w ≠ (modes.getD k ⟨0, 0⟩).w ∨ m.h ≠ (modes.getD k ⟨0, 0⟩).h) then
    scan_modes modes m j (k + 1)
  else k
termination_by j - k
decreasing_by omega

/-- The for loop of init_videomode_list (main.c 289-302) over the display modes
SDL_GetDisplayMode still has to report, with the block modes and the count j
so far; returns the block and j at loop exit. -/
def fill_modes : List videomode_size_t → List videomode_size_t → Nat →
    List videomode_size_t × Nat
  | [], modes, j => (modes, j)
  | m :: rest, modes, j =>
    let k := scan_modes modes m j 0
    if k ≥ j then fill_modes rest (modes.set j { w := m.w, h := m.h }) (j + 1)
    else fill_modes rest modes j

/-- The function init_videomode_list (main.c 276-306).  The argument display is
the sequence of modes of display 0 (SDL_GetNumDisplayModes is its length,
SDL_GetDisplayMode(0, i, &m) its entry i); malloc is none when the allocation
fails, else the unspecified contents of the fresh block, cell by cell. -/
def init_videomode_list (display : List videomode_size_t)
    (malloc : Option (Nat → videomode_size_t)) (st : State) : State :=
  let n : Nat := display.length
  let vlist1 : videomode_t :=
    if st.vlist.modes ≠ none then { n := 0, modes := none } else st.vlist
  let vlist2 : videomode_t :=
    if n > 0 then
      match malloc with
      | some cell =>
        let filled := fill_modes display ((List.range n).map cell) 0
        { n := (filled.2 : Int), modes := some filled.1 }
      | none => { vlist1 with modes := none }
    else vlist1
  { st with vlist := vlist2 }

/-! ## Event pump and frame loop -/

/-- An SDL_Event as poll_events looks at it: its type and the fields read. -/
inductive SDL_Event
  | SDL_QUIT
  | SDL_WINDOWEVENT (windowID : Nat) (event : Nat) (data1 data2 : Int)
  | SDL_KEYDOWN (scancode : Int)
  | SDL_KEYUP (scancode : Int)
  | SDL_TEXTINPUT (text : List Nat)
  | other
  deriving DecidableEq, Repr

@[match_pattern] def SDL_WINDOWEVENT_RESIZED : Nat := 5
@[match_pattern] def SDL_WINDOWEVENT_CLOSE : Nat := 14

/-- The function ERR_quit (main.c 145-147). -/
def ERR_quit (st : State) : State :=
  { st with quit := 1 }

/-- SDL_GetWindowID(window): the ID of the window, 0 for NULL. -/
def SDL_GetWindowID (window : Option SDL_Window) : Nat :=
  match window with
  | some win => win.id
  | none => 0

/-- The function window_event_handler (main.c 498-507); R_set_videomode is a
collaborator outside main.c, its call is recorded. -/
def window_event_handler (event : Nat) (data1 data2 : Int) (st : State) : State :=
  match event with
  | SDL_WINDOWEVENT_RESIZED => call (Call.R_set_videomode data1 data2 (Y_get_fullscreen st)) st
  | SDL_WINDOWEVENT_CLOSE => ERR_quit st
  | _ => st

/-- The body of the while loop of poll_events (main.c 530-553) for one event.
The table lookup cp866_utoc of common/cp866.h is a parameter.  The text of a
text-input event is SDL's char[32] array, so the three reads of utf8_to_wchar
stay inside it; the arm for a failed read is never taken on such a text. -/
def handle_event (cp866_utoc : Int → Int) (ev : SDL_Event) (st : State) : State :=
  match ev with
  | SDL_Event.SDL_QUIT => ERR_quit st
  | SDL_Event.SDL_WINDOWEVENT windowID event data1 data2 =>
    if windowID = SDL_GetWindowID st.window then window_event_handler event data1 data2 st
    else st
  | SDL_Event.SDL_KEYDOWN scancode =>
    let down := true
    let key := sdl_to_key scancode
    call (Call.GM_key key down) (call (Call.I_press key down) st)
  | SDL_Event.SDL_KEYUP scancode =>
    let down := false
    let key := sdl_to_key scancode
    call (Call.GM_key key down) (call (Call.I_press key down) st)
  | SDL_Event.SDL_TEXTINPUT text =>
    match utf8_to_wchar text with
    | some (uch, _) =>
      let ch := cp866_utoc uch
      if ch ≥ 0 then call (Call.GM_input ch) st else st
    | none => st
  | SDL_Event.other => st

/-- The function poll_events (main.c 526-555): the queued events, oldest first,
are taken one by one until SDL_PollEvent finds the queue empty. -/
def poll_events (cp866_utoc : Int → Int) : List SDL_Event → State → State
  | [], st => st
  | ev :: queue, st => poll_events cp866_utoc queue (handle_event cp866_utoc ev st)

/-- The function step (main.c 557-566).  DELAY is the constant of that name (its
header is not under src/) as an unsigned 32-bit value, events the queue found by
poll_events, now the value SDL_GetTicks returns. -/
def step (DELAY : Nat) (cp866_utoc : Int → Int) (events : List SDL_Event) (now : Nat)
    (st : State) : State :=
  let st1 := poll_events cp866_utoc events st
  let st2 := call Call.MUS_update st1
  let t := now % 2 ^ 32
  let st3 :=
    if (t + 2 ^ 32 - st2.ticks % 2 ^ 32) % 2 ^ 32 > DELAY then
      call Call.G_act { st2 with ticks := t }
    else st2
  call Call.R_draw st3

/-! ## Runs of the display surface manager -/

/-- One call of the public mode operations, with what SDL answers during it. -/
inductive Op
  | set_videomode_opengl (w h fullscreen : Int) (env : Alloc)
  | set_videomode_software (w h fullscreen : Int) (env : Alloc)
  | unset_videomode
  deriving DecidableEq, Repr

/-- Run one operation; none when an assert fails (the process aborts). -/
def Op.run (op : Op) (st : State) : Option State :=
  match op with
  | Op.set_videomode_opengl w h fullscreen env =>
    (Y_set_videomode_opengl w h fullscreen env st).map Prod.snd
  | Op.set_videomode_software w h fullscreen env =>
    (Y_set_videomode_software w h fullscreen env st).map Prod.snd
  | Op.unset_videomode => some (Y_unset_videomode st)

/-- Run a sequence of operations from a state, first operation first. -/
def run_ops : List Op → State → Option State
  | [], st => some st
  | op :: ops, st =>
    match op.run st with
    | some st1 => run_ops ops st1
    | none => none

/-- The mode Unset, read off the statics: no window, context or surface. -/
def Unset (st : State) : Prop :=
  st.window = none ∧ st.context = none ∧ st.surf = none

/-- The mode HardwareActive: a window and a GL context, no surface. -/
def HardwareActive (st : State) : Prop :=
  st.window ≠ none ∧ st.context ≠ none ∧ st.surf = none

/-- The mode SoftwareActive: a window and a surface, no GL context. -/
def SoftwareActive (st : State) : Prop :=
  st.window ≠ none ∧ st.context = none ∧ st.surf ≠ none

instance (st : State) : Decidable (Unset st) := by
  unfold Unset
  infer_instance

instance (st : State) : Decidable (HardwareActive st) := by
  unfold HardwareActive
  infer_instance

instance (st : State) : Decidable (SoftwareActive st) := by
  unfold SoftwareActive
  infer_instance

/-- The calls made between an earlier state and a later one. -/
def calls_since (st st1 : State) : List Call :=
  st1.trace.drop st.trace.length

/-- A creation request that SDL answered with NULL. -/
def failed_creation : Call → Bool
  | Call.SDL_CreateWindow _ _ _ _ none => true
  | Call.SDL_GL_CreateContext _ none => true
  | Call.SDL_CreateRGBSurface _ _ none => true
  | _ => false

/-! ## Reference notions used in the statements -/

/-- Reference for the video mode list: the elements of rest not yet in acc are
appended to acc one by one, each at its first occurrence. -/
def first_seen (acc : List videomode_size_t) (rest : List videomode_size_t) :
    List videomode_size_t :=
  rest.foldl (fun seen m => if m ∈ seen then seen else seen ++ [m]) acc

/-- The invariant of the display statics: a null window leaves context and
surface null, and context and surface are never both non-null. -/
def display_inv (st : State) : Prop :=
  (st.window = none → st.context = none ∧ st.surf = none) ∧
  ¬ (st.context ≠ none ∧ st.surf ≠ none)

/-- The surface Y_resize_window leaves for the requested size: the old one when
its size is the requested one or SDL has no replacement, else the replacement
carrying the old palette. -/
def resized_surf (w h : Int) (env : Alloc) (surf : Option SDL_Surface) : Option SDL_Surface :=
  match surf with
  | some s =>
    if s.w ≠ w ∨ s.h ≠ h then
      match env.surf with
      | some id => some { id := id, w := w, h := h, palette := s.palette }
      | none => some s
    else some s
  | none => none

/-- A state in software mode, 640 x 480, with window 1 and surface 1. -/
def software_640_480 : State :=
  { State.init with
    window := some { id := 1, w := 640, h := 480, opengl := false, fullscreen := false },
    surf := SDL_CreateRGBSurface 640 480 (some 1) }

/-- The display modes of the example of the specification. -/
def example_modes : List videomode_size_t :=
  [⟨640, 480⟩, ⟨800, 600⟩, ⟨640, 480⟩, ⟨1024, 768⟩]

/-! # Theorems -/

/-! ## Key translator: theorems -/

set_option maxRecDepth 100000 in
theorem sdl_to_key_cases_index :
    sdl_to_key_cases.map (fun c => (sdl_to_key c).toCtorIdx) = List.range' 1 104 := by
  decide

set_option maxRecDepth 100000 in
theorem sdl_to_key_below_232 :
    ∀ n : Nat, n < 232 → Int.ofNat n ∉ sdl_to_key_cases →
      sdl_to_key (Int.ofNat n) = Key.KEY_UNKNOWN := by
  decide

set_option maxRecDepth 100000 in
theorem sdl_to_key_from_232 (n : Nat) : sdl_to_key (Int.ofNat (n + 232)) = Key.KEY_UNKNOWN :=
  rfl

theorem sdl_to_key_default (c : Int) (h : c ∉ sdl_to_key_cases) :
    sdl_to_key c = Key.KEY_UNKNOWN := by
  cases c with
  | ofNat n =>
    by_cases hn : n < 232
    · exact sdl_to_key_below_232 n hn h
    · obtain ⟨m, rfl⟩ : ∃ m, n = m + 232 := ⟨n - 232, by omega⟩
      exact sdl_to_key_from_232 m
  | negSucc n => rfl

theorem sdl_to_key_inj_on_cases (c1 c2 : Int) (h1 : c1 ∈ sdl_to_key_cases)
    (h2 : c2 ∈ sdl_to_key_cases) (h : sdl_to_key c1 = sdl_to_key c2) : c1 = c2 := by
  have hnd : (sdl_to_key_cases.map (fun c => (sdl_to_key c).toCtorIdx)).Nodup := by
    rw [sdl_to_key_cases_index]
    exact List.nodup_range' 1 104
  exact List.inj_on_of_nodup_map hnd h1 h2 (by rw [h])

theorem sdl_to_key_known_on_cases (c : Int) (h : c ∈ sdl_to_key_cases) :
    sdl_to_key c ≠ Key.KEY_UNKNOWN := by
  intro hc
  have hm : (sdl_to_key c).toCtorIdx ∈
      sdl_to_key_cases.map (fun c => (sdl_to_key c).toCtorIdx) :=
    List.mem_map_of_mem _ h
  rw [sdl_to_key_cases_index, hc] at hm
  have h0 : Key.KEY_UNKNOWN.toCtorIdx = 0 := rfl
  rw [h0, List.mem_range'] at hm
  obtain ⟨i, _, hi⟩ := hm
  omega

/-- C7: for every numbering val of the key identifiers that gives different
identifiers different numbers, the translator sends no two different scan codes
of its cases to the same number, never sends a scan code of its cases to the
number of KEY_UNKNOWN, and sends every other scan code to the number of
KEY_UNKNOWN. -/
theorem sdl_to_key_no_aliasing (val : Key → Int) (hval : Function.Injective val) :
    (∀ c1 ∈ sdl_to_key_cases, ∀ c2 ∈ sdl_to_key_cases,
      val (sdl_to_key c1) = val (sdl_to_key c2) → c1 = c2) ∧
    (∀ c ∈ sdl_to_key_cases, val (sdl_to_key c) ≠ val Key.KEY_UNKNOWN) ∧
    (∀ c, c ∉ sdl_to_key_cases → val (sdl_to_key c) = val Key.KEY_UNKNOWN) := by
  refine ⟨?_, ?_, ?_⟩
  · intro c1 h1 c2 h2 h
    exact sdl_to_key_inj_on_cases c1 c2 h1 h2 (hval h)
  · intro c h hc
    exact sdl_to_key_known_on_cases c h (hval hc)
  · intro c h
    rw [sdl_to_key_default c h]

theorem key_index_injective : Function.Injective (fun k : Key => (k.toCtorIdx : Int)) := by
  intro a b h
  have h1 : a.toCtorIdx = b.toCtorIdx := Int.ofNat.inj h
  have h2 := congrArg Key.ofNat h1
  rwa [Key.ofNat_toCtorIdx, Key.ofNat_toCtorIdx] at h2

theorem sdl_to_key_no_aliasing_witness :
    (∀ c1 ∈ sdl_to_key_cases, ∀ c2 ∈ sdl_to_key_cases,
      ((sdl_to_key c1).toCtorIdx : Int) = ((sdl_to_key c2).toCtorIdx : Int) → c1 = c2) ∧
    (∀ c ∈ sdl_to_key_cases,
      ((sdl_to_key c).toCtorIdx : Int) ≠ (Key.KEY_UNKNOWN.toCtorIdx : Int)) ∧
    (∀ c, c ∉ sdl_to_key_cases →
      ((sdl_to_key c).toCtorIdx : Int) = (Key.KEY_UNKNOWN.toCtorIdx : Int)) :=
  sdl_to_key_no_aliasing (fun k : Key => (k.toCtorIdx : Int)) key_index_injective

/-! ## Text decoder: theorems -/

theorem land_lead_mask (lead : Nat) (h1 : 0xC0 ≤ lead) (h2 : lead < 0xE0) :
    lead &&& 0x1F = lead - 0xC0 := by
  interval_cases lead <;> rfl

theorem land_cont_mask (cont : Nat) (h1 : 0x80 ≤ cont) (h2 : cont < 0xC0) :
    cont &&& 0x3F = cont - 0x80 := by
  interval_cases cont <;> rfl

theorem utf8_to_wchar_reads_in_array (s : List Nat) (h : 3 ≤ s.length) :
    (utf8_to_wchar s).isSome = true := by
  rcases s with _ | ⟨a, _ | ⟨b, _ | ⟨c, rest⟩⟩⟩
  · simp at h
  · simp at h
  · simp at h
  · have hc : (b :: c :: rest)[1]? = some c := by simp
    simp only [utf8_to_wchar, List.getElem?_cons_zero, List.getElem?_cons_succ, hc]
    split_ifs <;> rfl

/-- C5, as stated, fails: the pair (0x81, 0x80) lies in the stated ranges, its
masked value is 64, and the decoder returns 0 (the guard s[0] - 192 >= 0). -/
theorem utf8_two_byte_low_lead_returns_zero :
    ((0x80 : Nat) ≤ 0x81 ∧ (0x81 : Nat) < 0xE0 ∧ (0x80 : Nat) ≤ 0x80 ∧ (0x80 : Nat) < 0xE0) ∧
    (utf8_to_wchar [0x81, 0x80, 0]).map Prod.fst = some 0 ∧
    (utf8_to_wchar [0x81, 0x80, 0]).map Prod.fst ≠
      some ((((0x81 &&& 0x1F) * 64 + (0x80 &&& 0x3F) : Nat)) : Int) := by
  decide

/-- A second input where the masked value is not returned: the next byte 0xC0
passes the range test [0x80, 0xE0) and is taken as 0xC0 - 128 = 64, so the pair
(0xC2, 0xC0) gives 192 where the masked value is 128. -/
theorem utf8_two_byte_high_cont_value :
    (utf8_to_wchar [0xC2, 0xC0, 0]).map Prod.fst = some 192 ∧
    ((((0xC2 &&& 0x1F) * 64 + (0xC0 &&& 0x3F) : Nat)) : Int) = 128 := by
  decide

/-- C5, amended: for a lead byte in [0xC0, 0xE0) and a next byte in [0x80, 0xC0)
the decoder returns (lead AND 0x1F) * 64 + (next AND 0x3F); for a lead byte in
[0x80, 0xC0) it returns 0 without reading further. -/
theorem utf8_two_byte_value (lead cont : Nat) (rest : List Nat) :
    (0xC0 ≤ lead → lead < 0xE0 → 0x80 ≤ cont → cont < 0xC0 →
      (utf8_to_wchar (lead :: cont :: rest)).map Prod.fst =
        some ((((lead &&& 0x1F) * 64 + (cont &&& 0x3F) : Nat)) : Int)) ∧
    (0x80 ≤ lead → lead < 0xC0 →
      utf8_to_wchar (lead :: cont :: rest) = some (0, [0])) := by
  constructor
  · intro h1 h2 h3 h4
    rw [land_lead_mask lead h1 h2, land_cont_mask cont h3 h4]
    have e1 : ¬ lead < 0x80 := by omega
    have e2 : (lead : Int) - 192 ≥ 0 := by omega
    have e3 : cont ≥ 0x80 ∧ cont < 0xE0 := by omega
    simp only [utf8_to_wchar, List.getElem?_cons_zero, List.getElem?_cons_succ, e1, h2, e2, e3,
      if_true, if_false, and_self, Option.map_some', Option.some.injEq]
    push_cast [Nat.sub_add_cancel, h1, h3]
    omega
  · intro h1 h2
    have e1 : ¬ lead < 0x80 := by omega
    have e2 : lead < 0xE0 := by omega
    have e3 : ¬ ((lead : Int) - 192 ≥ 0) := by omega
    simp only [utf8_to_wchar, List.getElem?_cons_zero, e1, e2, e3, if_true, if_false]

theorem utf8_two_byte_value_witness :
    (utf8_to_wchar [0xD0, 0x90, 0]).map Prod.fst =
        some ((((0xD0 &&& 0x1F) * 64 + (0x90 &&& 0x3F) : Nat)) : Int) ∧
    utf8_to_wchar [0x9F, 0x90, 0] = some (0, [0]) :=
  ⟨(utf8_two_byte_value 0xD0 0x90 [0]).1 (by decide) (by decide) (by decide) (by decide),
   (utf8_two_byte_value 0x9F 0x90 [0]).2 (by decide) (by decide)⟩

/-- C6: on a null-terminated buffer the decoder returns 0 whenever the lead byte
is at least 0xF0, or the lead byte is in [0x80, 0xE0) and the next byte is
outside [0x80, 0xE0), or the lead byte is in [0xE0, 0xF0) and one of the next
two bytes is outside [0x80, 0xE0). -/
theorem utf8_unsupported_returns_zero (s : List Nat) (lead : Nat) (hnul : 0 ∈ s)
    (hlead : s[0]? = some lead)
    (hbad : 0xF0 ≤ lead ∨
      (0x80 ≤ lead ∧ lead < 0xE0 ∧ ∃ b, s[1]? = some b ∧ (b < 0x80 ∨ 0xE0 ≤ b)) ∨
      (0xE0 ≤ lead ∧ lead < 0xF0 ∧
        ((∃ b, s[1]? = some b ∧ (b < 0x80 ∨ 0xE0 ≤ b)) ∨
         (∃ b, s[2]? = some b ∧ (b < 0x80 ∨ 0xE0 ≤ b))))) :
    (utf8_to_wchar s).map Prod.fst = some 0 := by
  rcases s with _ | ⟨a, _ | ⟨b, _ | ⟨c, rest⟩⟩⟩
  · simp at hnul
  · simp at hnul hlead
    subst hnul; subst hlead
    simp at hbad
  · simp at hlead
    subst hlead
    simp at hnul hbad
    unfold utf8_to_wchar
    simp only [List.getElem?_cons_zero, List.getElem?_cons_succ]
    rcases hbad with h | ⟨h1, h2, h3⟩ | ⟨h1, h2, h3⟩
    · have e1 : ¬ a < 0x80 := by omega
      have e2 : ¬ a < 0xE0 := by omega
      have e3 : ¬ a < 0xF0 := by omega
      simp [e1, e2, e3]
    · have e1 : ¬ a < 0x80 := by omega
      have e3 : ¬ (b ≥ 0x80 ∧ b < 0xE0) := by omega
      simp only [e1, h2, e3, if_true, if_false]
      split <;> rfl
    · have e1 : ¬ a < 0x80 := by omega
      have e2 : ¬ a < 0xE0 := by omega
      have e3 : ¬ (b ≥ 0x80 ∧ b < 0xE0) := by omega
      simp [e1, e2, h2, e3]
  · simp at hlead
    subst hlead
    simp only [List.getElem?_cons_zero, List.getElem?_cons_succ, Option.some.injEq,
      exists_eq_left'] at hbad
    unfold utf8_to_wchar
    simp only [List.getElem?_cons_zero, List.getElem?_cons_succ]
    rcases hbad with h | ⟨h1, h2, h3⟩ | ⟨h1, h2, h3⟩
    · have e1 : ¬ a < 0x80 := by omega
      have e2 : ¬ a < 0xE0 := by omega
      have e3 : ¬ a < 0xF0 := by omega
      simp [e1, e2, e3]
    · have e1 : ¬ a < 0x80 := by omega
      have e3 : ¬ (b ≥ 0x80 ∧ b < 0xE0) := by omega
      simp only [e1, h2, e3, if_true, if_false]
      split <;> rfl
    · have e1 : ¬ a < 0x80 := by omega
      have e2 : ¬ a < 0xE0 := by omega
      simp only [e1, e2, h2, if_true, if_false]
      by_cases hb : b ≥ 0x80 ∧ b < 0xE0
      · have e4 : ¬ (c ≥ 0x80 ∧ c < 0xE0) := by omega
        simp [hb, e4]
      · simp [hb]

theorem utf8_unsupported_returns_zero_witness :
    (utf8_to_wchar [0xE2, 0x82, 0x20, 0]).map Prod.fst = some 0 :=
  utf8_unsupported_returns_zero [0xE2, 0x82, 0x20, 0] 0xE2 (by decide) (by decide)
    (Or.inr (Or.inr ⟨by decide, by decide, Or.inr ⟨0x20, by decide, Or.inl (by decide)⟩⟩))

/-- C10: on a buffer that holds a zero byte, no read of the decoder fails, every
index it reads is at most the index of the first zero byte, index 1 is read only
when byte 0 is non-zero and index 2 only when bytes 0 and 1 are non-zero. -/
theorem utf8_reads_up_to_terminator (s : List Nat) (hnul : 0 ∈ s) :
    ∃ v reads, utf8_to_wchar s = some (v, reads) ∧
      (∀ i ∈ reads, i ≤ s.indexOf 0) ∧
      (1 ∈ reads → s[0]? ≠ some 0) ∧
      (2 ∈ reads → s[0]? ≠ some 0 ∧ s[1]? ≠ some 0) := by
  rcases s with _ | ⟨a, s1⟩
  · simp at hnul
  unfold utf8_to_wchar
  simp only [List.getElem?_cons_zero, List.getElem?_cons_succ]
  by_cases h1 : a < 0x80
  · simp only [h1, if_true]
    exact ⟨_, _, rfl, by simp, by simp, by simp⟩
  have ha : a ≠ 0 := by omega
  have hnul1 : 0 ∈ s1 := by
    rcases List.mem_cons.1 hnul with h | h
    · exact absurd h.symm ha
    · exact h
  rcases s1 with _ | ⟨b, s2⟩
  · simp at hnul1
  have hidx : (a :: b :: s2).indexOf 0 = (b :: s2).indexOf 0 + 1 := by
    rw [List.indexOf_cons_ne _ ha]
  have ha0 : some a ≠ some 0 := by simpa using ha
  simp only [h1, if_false, List.getElem?_cons_zero, hidx]
  by_cases hb : b ≥ 0x80 ∧ b < 0xE0
  · have hb0 : b ≠ 0 := by omega
    have hnul2 : 0 ∈ s2 := by
      rcases List.mem_cons.1 hnul1 with h | h
      · exact absurd h.symm hb0
      · exact h
    rcases s2 with _ | ⟨c, s3⟩
    · simp at hnul2
    have hidx2 : (b :: c :: s3).indexOf 0 = (c :: s3).indexOf 0 + 1 := by
      rw [List.indexOf_cons_ne _ hb0]
    have hb0 : some b ≠ some 0 := by simpa using hb0
    have hc : (b :: c :: s3)[1]? = some c := by simp
    simp only [hb, hidx2, and_self, if_true, List.getElem?_cons_zero, hc]
    split_ifs
    all_goals refine ⟨_, _, rfl, ?_, fun _ => ha0, fun _ => ⟨ha0, hb0⟩⟩
    all_goals
      intro i hi
      simp only [List.mem_cons, List.mem_singleton, List.not_mem_nil, or_false] at hi
      omega
  · simp only [hb, if_false]
    split_ifs
    all_goals refine ⟨_, _, rfl, ?_, fun _ => ha0, ?_⟩
    all_goals first
      | (intro h2; simp at h2)
      | (intro i hi
         simp only [List.mem_cons, List.mem_singleton, List.not_mem_nil, or_false] at hi
         omega)

theorem utf8_reads_up_to_terminator_witness :
    ∃ v reads, utf8_to_wchar [0xE2, 0x82, 0] = some (v, reads) ∧
      (∀ i ∈ reads, i ≤ [0xE2, 0x82, 0].indexOf 0) ∧
      (1 ∈ reads → ([0xE2, 0x82, 0] : List Nat)[0]? ≠ some 0) ∧
      (2 ∈ reads → ([0xE2, 0x82, 0] : List Nat)[0]? ≠ some 0 ∧
        ([0xE2, 0x82, 0] : List Nat)[1]? ≠ some 0) :=
  utf8_reads_up_to_terminator [0xE2, 0x82, 0] (by decide)

/-! ## Video mode list: theorems -/

theorem scan_modes_spec (modes : List videomode_size_t) (m : videomode_size_t) (j : Nat) :
    ∀ d k, j - k = d → k ≤ j →
      k ≤ scan_modes modes m j k ∧ scan_modes modes m j k ≤ j ∧
      (scan_modes modes m j k ≥ j ↔ ∀ i, k ≤ i → i < j → modes.getD i ⟨0, 0⟩ ≠ m) := by
  intro d
  induction d with
  | zero =>
    intro k hd hk
    have hkj : k = j := by omega
    subst hkj
    rw [scan_modes]
    simp only [lt_irrefl, false_and, if_false, le_refl, ge_iff_le, true_and, true_iff]
    intro i h1 h2
    omega
  | succ d ih =>
    intro k hd hk
    have hlt : k < j := by omega
    rw [scan_modes]
    by_cases hne : m.w ≠ (modes.getD k ⟨0, 0⟩).w ∨ m.h ≠ (modes.getD k ⟨0, 0⟩).h
    · have hc : k < j ∧ (m.w ≠ (modes.getD k ⟨0, 0⟩).w ∨ m.h ≠ (modes.getD k ⟨0, 0⟩).h) :=
        ⟨hlt, hne⟩
      rw [if_pos hc]
      obtain ⟨h1, h2, h3⟩ := ih (k + 1) (by omega) (by omega)
      refine ⟨by omega, h2, ?_⟩
      rw [h3]
      constructor
      · intro hall i hi1 hi2
        by_cases hik : i = k
        · subst hik
          intro heq
          rw [heq] at hne
          simp at hne
        · exact hall i (by omega) hi2
      · intro hall i hi1 hi2
        exact hall i (by omega) hi2
    · have hc : ¬ (k < j ∧
          (m.w ≠ (modes.getD k ⟨0, 0⟩).w ∨ m.h ≠ (modes.getD k ⟨0, 0⟩).h)) :=
        fun hc => hne hc.2
      rw [if_neg hc]
      refine ⟨le_refl k, hk, ?_⟩
      constructor
      · intro hge
        omega
      · intro hall
        exfalso
        push_neg at hne
        have heq : modes.getD k ⟨0, 0⟩ = m := by
          cases hm : modes.getD k ⟨0, 0⟩ with
          | mk w1 h1 =>
            cases m with
            | mk w2 h2 =>
              rw [hm] at hne
              simp only at hne
              rw [hne.1, hne.2]
        exact hall k (le_refl k) hlt heq

theorem scan_modes_new_iff (modes : List videomode_size_t) (m : videomode_size_t) (j : Nat)
    (hj : j ≤ modes.length) : scan_modes modes m j 0 ≥ j ↔ m ∉ modes.take j := by
  rw [(scan_modes_spec modes m j j 0 rfl (Nat.zero_le j)).2.2]
  constructor
  · intro hall hmem
    obtain ⟨i, hi, heq⟩ := List.mem_take_iff_getElem.1 hmem
    have hi1 : i < j := lt_of_lt_of_le hi (min_le_left _ _)
    have hi2 : i < modes.length := lt_of_lt_of_le hi (min_le_right _ _)
    exact hall i (Nat.zero_le i) hi1 (by rw [List.getD_eq_getElem _ _ hi2]; exact heq)
  · intro hnot i _ hi heq
    have hi2 : i < modes.length := lt_of_lt_of_le hi hj
    rw [List.getD_eq_getElem _ _ hi2] at heq
    exact hnot (List.mem_take_iff_getElem.2 ⟨i, lt_min hi hi2, heq⟩)

theorem take_succ_set (modes : List videomode_size_t) (m : videomode_size_t) (j : Nat)
    (hj : j < modes.length) : (modes.set j m).take (j + 1) = modes.take j ++ [m] := by
  have h1 : (modes.set j m).take j = modes.take j := by
    rw [List.set_take, List.set_eq_of_length_le (by simp)]
  rw [List.take_succ, List.getElem?_set_self hj, h1]
  rfl

theorem fill_modes_spec (rest : List videomode_size_t) :
    ∀ (modes : List videomode_size_t) (j : Nat), j + rest.length ≤ modes.length →
      (fill_modes rest modes j).1.length = modes.length ∧
      (fill_modes rest modes j).2 ≤ modes.length ∧
      (fill_modes rest modes j).1.take (fill_modes rest modes j).2 =
        first_seen (modes.take j) rest := by
  induction rest with
  | nil =>
    intro modes j hj
    exact ⟨rfl, by simpa using hj, rfl⟩
  | cons m rest ih =>
    intro modes j hj
    simp only [List.length_cons] at hj
    have hjl : j ≤ modes.length := by omega
    have heta : ({ w := m.w, h := m.h } : videomode_size_t) = m := rfl
    simp only [fill_modes, heta]
    by_cases hnew : scan_modes modes m j 0 ≥ j
    · rw [if_pos hnew]
      have hnot := (scan_modes_new_iff modes m j hjl).1 hnew
      obtain ⟨h1, h2, h3⟩ := ih (modes.set j m) (j + 1) (by simp; omega)
      refine ⟨by rw [h1]; simp, by rw [List.length_set] at h2; exact h2, ?_⟩
      rw [h3, take_succ_set modes m j (by omega)]
      simp only [first_seen, List.foldl_cons, hnot, if_false]
    · rw [if_neg hnew]
      have hmem : m ∈ modes.take j := by
        by_contra hc
        exact hnew ((scan_modes_new_iff modes m j hjl).2 hc)
      obtain ⟨h1, h2, h3⟩ := ih modes j (by omega)
      refine ⟨h1, h2, ?_⟩
      rw [h3]
      simp only [first_seen, List.foldl_cons, hmem, if_true]

theorem first_seen_cons (acc rest : List videomode_size_t) (m : videomode_size_t) :
    first_seen acc (m :: rest) = first_seen (if m ∈ acc then acc else acc ++ [m]) rest :=
  rfl

theorem first_seen_nodup (rest : List videomode_size_t) :
    ∀ acc : List videomode_size_t, acc.Nodup → (first_seen acc rest).Nodup := by
  induction rest with
  | nil => intro acc h; exact h
  | cons m rest ih =>
    intro acc h
    rw [first_seen_cons]
    apply ih
    split_ifs with hm
    · exact h
    · exact List.Nodup.append h (List.nodup_singleton m) (by simpa using hm)

theorem first_seen_mem (rest : List videomode_size_t) :
    ∀ (acc : List videomode_size_t) (x : videomode_size_t),
      x ∈ first_seen acc rest ↔ x ∈ acc ∨ x ∈ rest := by
  induction rest with
  | nil => intro acc x; simp [first_seen]
  | cons m rest ih =>
    intro acc x
    rw [first_seen_cons, ih]
    split_ifs with hm
    · constructor
      · rintro (h | h)
        · exact Or.inl h
        · exact Or.inr (List.mem_cons_of_mem _ h)
      · rintro (h | h)
        · exact Or.inl h
        · rcases List.mem_cons.1 h with h1 | h1
          · exact Or.inl (h1 ▸ hm)
          · exact Or.inr h1
    · simp only [List.mem_append, List.mem_singleton, List.mem_cons]
      tauto

theorem first_seen_order (display : List videomode_size_t) :
    ∀ (rest seen acc : List videomode_size_t), display = seen ++ rest →
      (∀ x, x ∈ acc ↔ x ∈ seen) →
      acc.Pairwise (fun a b => display.indexOf a < display.indexOf b) →
      (first_seen acc rest).Pairwise (fun a b => display.indexOf a < display.indexOf b) := by
  intro rest
  induction rest with
  | nil => intro seen acc _ _ h; exact h
  | cons m rest ih =>
    intro seen acc hd hmem hpw
    have hd1 : display = (seen ++ [m]) ++ rest := by rw [hd]; simp
    rw [first_seen_cons]
    split_ifs with hm
    · refine ih (seen ++ [m]) acc hd1 (fun x => ?_) hpw
      rw [List.mem_append, List.mem_singleton, ← hmem]
      constructor
      · exact fun h => Or.inl h
      · rintro (h | h)
        · exact h
        · exact h ▸ hm
    · refine ih (seen ++ [m]) (acc ++ [m]) hd1 (fun x => ?_) ?_
      · simp only [List.mem_append, List.mem_singleton, hmem]
      · rw [List.pairwise_append]
        refine ⟨hpw, List.pairwise_singleton _ _, fun a ha b hb => ?_⟩
        rw [List.mem_singleton] at hb
        subst hb
        have ha1 : a ∈ seen := (hmem a).1 ha
        have hb1 : b ∉ seen := fun h => hm ((hmem b).2 h)
        rw [hd, List.indexOf_append_of_mem ha1, List.indexOf_append_of_not_mem hb1,
          List.indexOf_cons_self]
        simpa using List.indexOf_lt_length.2 ha1

theorem init_videomode_list_first_seen (display : List videomode_size_t)
    (cell : Nat → videomode_size_t) (st : State) (hn : display.length > 0) :
    ∃ modes, (init_videomode_list display (some cell) st).vlist.modes = some modes ∧
      (init_videomode_list display (some cell) st).vlist.n =
        ((first_seen [] display).length : Int) ∧
      modes.take (first_seen [] display).length = first_seen [] display := by
  obtain ⟨h1, h2, h3⟩ := fill_modes_spec display ((List.range display.length).map cell) 0
    (by simp)
  rw [List.take_zero] at h3
  have hlen : (fill_modes display ((List.range display.length).map cell) 0).2 =
      (first_seen [] display).length := by
    rw [← h3, List.length_take, h1]
    exact (min_eq_left h2).symm
  refine ⟨(fill_modes display ((List.range display.length).map cell) 0).1, ?_, ?_, ?_⟩
  · simp only [init_videomode_list, hn, if_true]
  · simp only [init_videomode_list, hn, if_true, hlen]
  · rw [← hlen]
    exact h3

/-- C2: for every non-empty sequence of display modes and a successful
allocation, init_videomode_list leaves in the first vlist.n cells of vlist.modes
a list without repetition that holds a pair exactly when the sequence does, in
the order of the first occurrences in the sequence, and vlist.n is the number of
distinct pairs; on the example sequence the cells are (640,480), (800,600),
(1024,768) and vlist.n is 3. -/
theorem init_videomode_list_distinct :
    (∀ (display : List videomode_size_t) (cell : Nat → videomode_size_t) (st : State),
      display.length > 0 →
      ∃ (modes : List videomode_size_t) (j : Nat),
        (init_videomode_list display (some cell) st).vlist.modes = some modes ∧
        (init_videomode_list display (some cell) st).vlist.n = (j : Int) ∧
        j ≤ modes.length ∧
        (modes.take j).Nodup ∧
        (∀ p, p ∈ modes.take j ↔ p ∈ display) ∧
        (modes.take j).Pairwise (fun a b => display.indexOf a < display.indexOf b) ∧
        j = display.toFinset.card) ∧
    (∀ (cell : Nat → videomode_size_t) (st : State),
      ∃ modes, (init_videomode_list example_modes (some cell) st).vlist.modes = some modes ∧
        modes.take 3 = [⟨640, 480⟩, ⟨800, 600⟩, ⟨1024, 768⟩] ∧
        (init_videomode_list example_modes (some cell) st).vlist.n = 3) := by
  constructor
  · intro display cell st hn
    obtain ⟨modes, h1, h2, h3⟩ := init_videomode_list_first_seen display cell st hn
    have hnd : (first_seen [] display).Nodup := first_seen_nodup display [] List.nodup_nil
    have hmem : ∀ p, p ∈ first_seen [] display ↔ p ∈ display := by
      intro p
      rw [first_seen_mem]
      simp
    refine ⟨modes, (first_seen [] display).length, h1, h2, ?_, ?_, ?_, ?_, ?_⟩
    · have hl := congrArg List.length h3
      rw [List.length_take] at hl
      omega
    · rw [h3]; exact hnd
    · intro p; rw [h3]; exact hmem p
    · rw [h3]
      exact first_seen_order display display [] [] rfl (fun x => Iff.rfl) List.Pairwise.nil
    · rw [← List.toFinset_card_of_nodup hnd]
      exact congrArg Finset.card (List.toFinset.ext hmem)
  · intro cell st
    obtain ⟨modes, h1, h2, h3⟩ :=
      init_videomode_list_first_seen example_modes cell st (by decide)
    have hfs : first_seen [] example_modes = [⟨640, 480⟩, ⟨800, 600⟩, ⟨1024, 768⟩] := by
      decide
    rw [hfs] at h2 h3
    exact ⟨modes, h1, h3, h2⟩

theorem init_videomode_list_distinct_witness :
    ∃ (modes : List videomode_size_t) (j : Nat),
      (init_videomode_list [⟨800, 600⟩, ⟨800, 600⟩, ⟨640, 480⟩] (some (fun _ => ⟨0, 0⟩))
        State.init).vlist.modes = some modes ∧
      (init_videomode_list [⟨800, 600⟩, ⟨800, 600⟩, ⟨640, 480⟩] (some (fun _ => ⟨0, 0⟩))
        State.init).vlist.n = (j : Int) ∧
      j ≤ modes.length ∧
      (modes.take j).Nodup ∧
      (∀ p, p ∈ modes.take j ↔ p ∈ [(⟨800, 600⟩ : videomode_size_t), ⟨800, 600⟩, ⟨640, 480⟩]) ∧
      (modes.take j).Pairwise (fun a b =>
        [(⟨800, 600⟩ : videomode_size_t), ⟨800, 600⟩, ⟨640, 480⟩].indexOf a <
          [(⟨800, 600⟩ : videomode_size_t), ⟨800, 600⟩, ⟨640, 480⟩].indexOf b) ∧
      j = [(⟨800, 600⟩ : videomode_size_t), ⟨800, 600⟩, ⟨640, 480⟩].toFinset.card :=
  init_videomode_list_distinct.1 [⟨800, 600⟩, ⟨800, 600⟩, ⟨640, 480⟩] (fun _ => ⟨0, 0⟩)
    State.init (by decide)

/-! ## Display surface manager: theorems -/

theorem SDL_SetPaletteColors_all (p q : SDL_Palette) :
    SDL_SetPaletteColors p q.val 0 q.val.length = q := by
  apply Subtype.ext
  apply List.ext_getElem
  · simp only [SDL_SetPaletteColors, List.length_ofFn, q.property]
  · intro i h1 h2
    have hi : i < 256 := by rw [q.property] at h2; exact h2
    simp only [SDL_SetPaletteColors, List.getElem_ofFn, q.property, Nat.zero_le, Nat.zero_add,
      hi, and_self, if_true, Nat.sub_zero]
    rw [List.getD_eq_getElem _ _ h2]

@[simp] theorem call_window (c : Call) (st : State) : (call c st).window = st.window := rfl

@[simp] theorem call_context (c : Call) (st : State) : (call c st).context = st.context := rfl

@[simp] theorem call_surf (c : Call) (st : State) : (call c st).surf = st.surf := rfl

@[simp] theorem call_trace (c : Call) (st : State) : (call c st).trace = st.trace ++ [c] := rfl

theorem Y_unset_videomode_fields (st : State) :
    (st.window ≠ none →
      (Y_unset_videomode st).window = none ∧ (Y_unset_videomode st).context = none ∧
      (Y_unset_videomode st).surf = none) ∧
    (st.window = none → Y_unset_videomode st = st) := by
  obtain ⟨ticks, quit, window, context, surf, vlist, trace⟩ := st
  rcases window with _ | win <;> rcases context with _ | ctx <;> rcases surf with _ | s <;>
    simp [Y_unset_videomode, call]

theorem Y_unset_videomode_inv (st : State) (h : display_inv st) :
    (Y_unset_videomode st).window = none ∧ (Y_unset_videomode st).context = none ∧
    (Y_unset_videomode st).surf = none := by
  by_cases hw : st.window = none
  · rw [(Y_unset_videomode_fields st).2 hw]
    exact ⟨hw, h.1 hw⟩
  · exact (Y_unset_videomode_fields st).1 hw

theorem Y_resize_window_fields (w h fullscreen : Int) (env : Alloc) (st : State)
    (win : SDL_Window) (hw : w > 0) (hh : h > 0) (hwin : st.window = some win) :
    ∃ st1, Y_resize_window w h fullscreen env st = some (1, st1) ∧
      st1.context = st.context ∧
      st1.surf = resized_surf w h env st.surf ∧
      st1.window = some { win with w := w, h := h, fullscreen := decide (fullscreen ≠ 0) } := by
  obtain ⟨ticks, quit, window, context, surf, vlist, trace⟩ := st
  obtain ⟨ewin, ectx, esurf⟩ := env
  simp only at hwin
  subst hwin
  have e1 : ¬ ¬ (w > 0) := not_not.2 hw
  have e2 : ¬ ¬ (h > 0) := not_not.2 hh
  simp only [Y_resize_window, e1, e2, if_false]
  refine ⟨_, rfl, ?_, ?_, ?_⟩
  · simp only [Y_set_fullscreen, call]
    rcases surf with _ | s
    · rfl
    · dsimp only
      split_ifs
      · rcases esurf with _ | id <;> rfl
      · rfl
  · simp only [Y_set_fullscreen, call, resized_surf]
    rcases surf with _ | s
    · rfl
    · dsimp only
      split_ifs
      · rcases esurf with _ | id
        · rfl
        · simp only [SDL_CreateRGBSurface, SDL_SetPaletteColors_all]
      · rfl
  · simp only [Y_set_fullscreen, call]

theorem calls_since_append (st st1 : State) (cs : List Call) (h : st1.trace = st.trace ++ cs) :
    calls_since st st1 = cs := by
  rw [calls_since, h, List.drop_left]

theorem Y_resize_window_failure (w h fullscreen : Int) (env : Alloc) (st st1 : State) (r : Int)
    (hrun : Y_resize_window w h fullscreen env st = some (r, st1))
    (hfail : (calls_since st st1).any failed_creation = true) :
    st.surf ≠ none ∧ env.surf = none := by
  obtain ⟨ticks, quit, window, context, surf, vlist, trace⟩ := st
  obtain ⟨ewin, ectx, esurf⟩ := env
  unfold Y_resize_window at hrun
  split_ifs at hrun
  rcases window with _ | win
  · simp at hrun
  rcases surf with _ | s
  · simp only [Option.some.injEq, Prod.mk.injEq] at hrun
    obtain ⟨_, rfl⟩ := hrun
    rw [calls_since_append _ _ [Call.SDL_SetWindowSize win.id w h,
      Call.SDL_SetWindowFullscreen win.id (decide (fullscreen ≠ 0))]
      (by simp [Y_set_fullscreen, call])] at hfail
    simp [failed_creation] at hfail
  · refine ⟨by simp, ?_⟩
    rcases esurf with _ | id
    · rfl
    · exfalso
      simp only [Option.some.injEq, Prod.mk.injEq] at hrun
      obtain ⟨_, rfl⟩ := hrun
      by_cases hsz : s.w ≠ w ∨ s.h ≠ h
      · rw [calls_since_append _ _ [Call.SDL_CreateRGBSurface w h (some id),
          Call.SDL_SetPaletteColors id, Call.SDL_FreeSurface s.id,
          Call.SDL_SetWindowSize win.id w h,
          Call.SDL_SetWindowFullscreen win.id (decide (fullscreen ≠ 0))]
          (by simp [Y_set_fullscreen, call, hsz, SDL_CreateRGBSurface])] at hfail
        simp [failed_creation] at hfail
      · rw [calls_since_append _ _ [Call.SDL_SetWindowSize win.id w h,
          Call.SDL_SetWindowFullscreen win.id (decide (fullscreen ≠ 0))]
          (by simp [Y_set_fullscreen, call, hsz])] at hfail
        simp [failed_creation] at hfail

theorem resized_surf_of_failure (w h : Int) (env : Alloc) (surf : Option SDL_Surface)
    (hnone : env.surf = none) : resized_surf w h env surf = surf := by
  unfold resized_surf
  rcases surf with _ | s
  · rfl
  · simp only [hnone]
    split_ifs <;> rfl

theorem Y_set_videomode_opengl_resize (w h fullscreen : Int) (env : Alloc) (st : State)
    (win : SDL_Window) (hw : w > 0) (hh : h > 0) (hwin : st.window = some win)
    (hctx : st.context ≠ none) :
    ∃ st1, Y_set_videomode_opengl w h fullscreen env st = some (1, st1) ∧
      Y_resize_window w h fullscreen env st = some (1, st1) ∧
      st1.context = st.context ∧
      st1.surf = resized_surf w h env st.surf ∧
      st1.window = some { win with w := w, h := h, fullscreen := decide (fullscreen ≠ 0) } := by
  obtain ⟨st1, h1, h2, h3, h4⟩ := Y_resize_window_fields w h fullscreen env st win hw hh hwin
  refine ⟨st1, ?_, h1, h2, h3, h4⟩
  have e1 : ¬ ¬ (w > 0) := not_not.2 hw
  have e2 : ¬ ¬ (h > 0) := not_not.2 hh
  have e3 : st.window ≠ none ∧ st.context ≠ none := ⟨by simp [hwin], hctx⟩
  unfold Y_set_videomode_opengl
  rw [if_neg e1, if_neg e2, if_pos e3, h1]
  simp only [h4]

theorem Y_set_videomode_software_resize (w h fullscreen : Int) (env : Alloc) (st : State)
    (win : SDL_Window) (hw : w > 0) (hh : h > 0) (hwin : st.window = some win)
    (hsurf : st.surf ≠ none) :
    ∃ st1, Y_set_videomode_software w h fullscreen env st = some (1, st1) ∧
      Y_resize_window w h fullscreen env st = some (1, st1) ∧
      st1.context = st.context ∧
      st1.surf = resized_surf w h env st.surf ∧
      st1.window = some { win with w := w, h := h, fullscreen := decide (fullscreen ≠ 0) } := by
  obtain ⟨st1, h1, h2, h3, h4⟩ := Y_resize_window_fields w h fullscreen env st win hw hh hwin
  refine ⟨st1, ?_, h1, h2, h3, h4⟩
  have e1 : ¬ ¬ (w > 0) := not_not.2 hw
  have e2 : ¬ ¬ (h > 0) := not_not.2 hh
  have e3 : st.window ≠ none ∧ st.surf ≠ none := ⟨by simp [hwin], hsurf⟩
  unfold Y_set_videomode_software
  rw [if_neg e1, if_neg e2, if_pos e3, h1]
  simp only [h4]

theorem Y_set_videomode_opengl_create (w h fullscreen : Int) (env : Alloc) (st : State)
    (hw : w > 0) (hh : h > 0) (hpath : ¬ (st.window ≠ none ∧ st.context ≠ none)) :
    (env.win = none →
      Y_set_videomode_opengl w h fullscreen env st = some (0, call Call.logo_error
        (call (Call.SDL_CreateWindow w h true (decide (fullscreen ≠ 0)) none) st))) ∧
    (∀ win, env.win = some win → env.ctx = none →
      Y_set_videomode_opengl w h fullscreen env st = some (0, call Call.logo_error
        (call (Call.SDL_DestroyWindow win) (call (Call.SDL_GL_CreateContext win none)
          (call (Call.SDL_CreateWindow w h true (decide (fullscreen ≠ 0)) (some win)) st))))) ∧
    (∀ win ctx, env.win = some win → env.ctx = some ctx →
      Y_set_videomode_opengl w h fullscreen env st = some (1,
        call (Call.SDL_GL_MakeCurrent win (some ctx))
          { Y_unset_videomode (call (Call.SDL_GL_CreateContext win (some ctx))
              (call (Call.SDL_CreateWindow w h true (decide (fullscreen ≠ 0)) (some win)) st))
            with
            window := some { id := win, w := w, h := h, opengl := true,
                             fullscreen := decide (fullscreen ≠ 0) },
            context := some ctx })) := by
  have e1 : ¬ ¬ (w > 0) := not_not.2 hw
  have e2 : ¬ ¬ (h > 0) := not_not.2 hh
  refine ⟨?_, ?_, ?_⟩
  · intro h1
    unfold Y_set_videomode_opengl
    rw [if_neg e1, if_neg e2, if_neg hpath]
    simp only [h1]
  · intro win h1 h2
    unfold Y_set_videomode_opengl
    rw [if_neg e1, if_neg e2, if_neg hpath]
    simp only [h1, h2]
  · intro win ctx h1 h2
    unfold Y_set_videomode_opengl
    rw [if_neg e1, if_neg e2, if_neg hpath]
    simp only [h1, h2]

theorem Y_set_videomode_software_create (w h fullscreen : Int) (env : Alloc) (st : State)
    (hw : w > 0) (hh : h > 0) (hpath : ¬ (st.window ≠ none ∧ st.surf ≠ none)) :
    (env.win = none →
      Y_set_videomode_software w h fullscreen env st = some (0, call Call.logo_error
        (call (Call.SDL_CreateWindow w h false (decide (fullscreen ≠ 0)) none) st))) ∧
    (∀ win, env.win = some win → env.surf = none →
      Y_set_videomode_software w h fullscreen env st = some (0, call Call.logo_error
        (call (Call.SDL_DestroyWindow win) (call (Call.SDL_CreateRGBSurface w h none)
          (call (Call.SDL_CreateWindow w h false (decide (fullscreen ≠ 0)) (some win)) st))))) ∧
    (∀ win id, env.win = some win → env.surf = some id →
      Y_set_videomode_software w h fullscreen env st = some (1,
          { Y_unset_videomode (call (Call.SDL_CreateRGBSurface w h (some id))
              (call (Call.SDL_CreateWindow w h false (decide (fullscreen ≠ 0)) (some win)) st))
            with
            window := some { id := win, w := w, h := h, opengl := false,
                             fullscreen := decide (fullscreen ≠ 0) },
            surf := some { id := id, w := w, h := h, palette := SDL_AllocPalette } })) := by
  have e1 : ¬ ¬ (w > 0) := not_not.2 hw
  have e2 : ¬ ¬ (h > 0) := not_not.2 hh
  refine ⟨?_, ?_, ?_⟩
  · intro h1
    unfold Y_set_videomode_software
    rw [if_neg e1, if_neg e2, if_neg hpath]
    simp only [h1]
  · intro win h1 h2
    unfold Y_set_videomode_software
    rw [if_neg e1, if_neg e2, if_neg hpath]
    simp only [h1, h2, SDL_CreateRGBSurface]
  · intro win id h1 h2
    unfold Y_set_videomode_software
    rw [if_neg e1, if_neg e2, if_neg hpath]
    simp only [h1, h2, SDL_CreateRGBSurface]

theorem Y_set_videomode_opengl_asserts (w h fullscreen : Int) (env : Alloc) (st : State)
    (hbad : ¬ (w > 0 ∧ h > 0)) : Y_set_videomode_opengl w h fullscreen env st = none := by
  unfold Y_set_videomode_opengl
  by_cases hw : w > 0
  · have hh : ¬ (h > 0) := fun hh => hbad ⟨hw, hh⟩
    rw [if_neg (not_not.2 hw), if_pos hh]
  · rw [if_pos hw]

theorem Y_set_videomode_software_asserts (w h fullscreen : Int) (env : Alloc) (st : State)
    (hbad : ¬ (w > 0 ∧ h > 0)) : Y_set_videomode_software w h fullscreen env st = none := by
  unfold Y_set_videomode_software
  by_cases hw : w > 0
  · have hh : ¬ (h > 0) := fun hh => hbad ⟨hw, hh⟩
    rw [if_neg (not_not.2 hw), if_pos hh]
  · rw [if_pos hw]

theorem Y_set_videomode_opengl_inv (w h fullscreen : Int) (env : Alloc) (st st1 : State)
    (r : Int) (hinv : display_inv st)
    (hrun : Y_set_videomode_opengl w h fullscreen env st = some (r, st1)) :
    display_inv st1 := by
  by_cases hwh : w > 0 ∧ h > 0
  swap
  · rw [Y_set_videomode_opengl_asserts w h fullscreen env st hwh] at hrun
    exact absurd hrun (by simp)
  obtain ⟨hw, hh⟩ := hwh
  by_cases hpath : st.window ≠ none ∧ st.context ≠ none
  · obtain ⟨win, hwin⟩ := Option.ne_none_iff_exists'.1 hpath.1
    obtain ⟨st2, h1, _, h2, h3, h4⟩ :=
      Y_set_videomode_opengl_resize w h fullscreen env st win hw hh hwin hpath.2
    rw [h1] at hrun
    obtain ⟨_, rfl⟩ := Prod.mk.inj (Option.some.inj hrun)
    have hs : st.surf = none := by
      by_contra hs
      exact hinv.2 ⟨hpath.2, hs⟩
    have hs2 : st2.surf = none := by rw [h3, hs]; rfl
    exact ⟨fun hn => by rw [h4] at hn; exact absurd hn (by simp), fun hc => hc.2 hs2⟩
  · obtain ⟨c1, c2, c3⟩ := Y_set_videomode_opengl_create w h fullscreen env st hw hh hpath
    rcases hwin : env.win with _ | win
    · rw [c1 hwin] at hrun
      obtain ⟨_, rfl⟩ := Prod.mk.inj (Option.some.inj hrun)
      exact hinv
    · rcases hctx : env.ctx with _ | ctx
      · rw [c2 win hwin hctx] at hrun
        obtain ⟨_, rfl⟩ := Prod.mk.inj (Option.some.inj hrun)
        exact hinv
      · rw [c3 win ctx hwin hctx] at hrun
        obtain ⟨_, rfl⟩ := Prod.mk.inj (Option.some.inj hrun)
        have hu := Y_unset_videomode_inv
          (call (Call.SDL_GL_CreateContext win (some ctx))
            (call (Call.SDL_CreateWindow w h true (decide (fullscreen ≠ 0)) (some win)) st))
          hinv
        refine ⟨fun hn => ?_, fun hc => hc.2 ?_⟩
        · simp at hn
        · simpa using hu.2.2

theorem Y_set_videomode_software_inv (w h fullscreen : Int) (env : Alloc) (st st1 : State)
    (r : Int) (hinv : display_inv st)
    (hrun : Y_set_videomode_software w h fullscreen env st = some (r, st1)) :
    display_inv st1 := by
  by_cases hwh : w > 0 ∧ h > 0
  swap
  · rw [Y_set_videomode_software_asserts w h fullscreen env st hwh] at hrun
    exact absurd hrun (by simp)
  obtain ⟨hw, hh⟩ := hwh
  by_cases hpath : st.window ≠ none ∧ st.surf ≠ none
  · obtain ⟨win, hwin⟩ := Option.ne_none_iff_exists'.1 hpath.1
    obtain ⟨st2, h1, _, h2, h3, h4⟩ :=
      Y_set_videomode_software_resize w h fullscreen env st win hw hh hwin hpath.2
    rw [h1] at hrun
    obtain ⟨_, rfl⟩ := Prod.mk.inj (Option.some.inj hrun)
    have hc : st.context = none := by
      by_contra hc
      exact hinv.2 ⟨hc, hpath.2⟩
    exact ⟨fun hn => by rw [h4] at hn; exact absurd hn (by simp),
      fun hb => hb.1 (by rw [h2, hc])⟩
  · obtain ⟨c1, c2, c3⟩ := Y_set_videomode_software_create w h fullscreen env st hw hh hpath
    rcases hwin : env.win with _ | win
    · rw [c1 hwin] at hrun
      obtain ⟨_, rfl⟩ := Prod.mk.inj (Option.some.inj hrun)
      exact hinv
    · rcases hsf : env.surf with _ | id
      · rw [c2 win hwin hsf] at hrun
        obtain ⟨_, rfl⟩ := Prod.mk.inj (Option.some.inj hrun)
        exact hinv
      · rw [c3 win id hwin hsf] at hrun
        obtain ⟨_, rfl⟩ := Prod.mk.inj (Option.some.inj hrun)
        have hu := Y_unset_videomode_inv
          (call (Call.SDL_CreateRGBSurface w h (some id))
            (call (Call.SDL_CreateWindow w h false (decide (fullscreen ≠ 0)) (some win)) st))
          hinv
        refine ⟨fun hn => ?_, fun hc => hc.1 ?_⟩
        · simp at hn
        · simpa using hu.2.1

theorem Op_run_inv (op : Op) (st st1 : State) (hinv : display_inv st)
    (hrun : op.run st = some st1) : display_inv st1 := by
  cases op with
  | set_videomode_opengl w h fullscreen env =>
    simp only [Op.run, Option.map_eq_some'] at hrun
    obtain ⟨⟨r, st2⟩, h1, rfl⟩ := hrun
    exact Y_set_videomode_opengl_inv w h fullscreen env st st2 r hinv h1
  | set_videomode_software w h fullscreen env =>
    simp only [Op.run, Option.map_eq_some'] at hrun
    obtain ⟨⟨r, st2⟩, h1, rfl⟩ := hrun
    exact Y_set_videomode_software_inv w h fullscreen env st st2 r hinv h1
  | unset_videomode =>
    simp only [Op.run, Option.some.injEq] at hrun
    subst hrun
    have hu := Y_unset_videomode_inv st hinv
    exact ⟨fun _ => ⟨hu.2.1, hu.2.2⟩, fun hc => hc.1 hu.2.1⟩

theorem run_ops_inv (ops : List Op) (st st1 : State) (hinv : display_inv st)
    (hrun : run_ops ops st = some st1) : display_inv st1 := by
  induction ops generalizing st with
  | nil =>
    simp only [run_ops, Option.some.injEq] at hrun
    subst hrun
    exact hinv
  | cons op ops ih =>
    unfold run_ops at hrun
    split at hrun
    · next st2 h2 => exact ih st2 (Op_run_inv op st st2 hinv h2) hrun
    · exact absurd hrun (by simp)

/-- C3: in every state reached from the initial statics by a sequence of
Y_set_videomode_opengl, Y_set_videomode_software and Y_unset_videomode calls
(Y_resize_window running inside the setters), whatever SDL answers to each
creation request, context and surface are not both non-null and the window is
non-null whenever the context or the surface is. -/
theorem display_exclusive (ops : List Op) (st : State)
    (hrun : run_ops ops State.init = some st) :
    ¬ (st.context ≠ none ∧ st.surf ≠ none) ∧
    ((st.context ≠ none ∨ st.surf ≠ none) → st.window ≠ none) := by
  have hinit : display_inv State.init := ⟨fun _ => ⟨rfl, rfl⟩, fun hc => hc.1 rfl⟩
  have hinv := run_ops_inv ops State.init st hinit hrun
  refine ⟨hinv.2, fun hor hwin => ?_⟩
  obtain ⟨h1, h2⟩ := hinv.1 hwin
  rcases hor with hc | hs
  · exact hc h1
  · exact hs h2

theorem display_exclusive_witness :
    ∃ st, run_ops [Op.set_videomode_opengl 640 480 0 ⟨some 1, some 1, none⟩,
                  Op.set_videomode_software 800 600 1 ⟨some 2, none, some 2⟩,
                  Op.set_videomode_software 320 200 1 ⟨none, none, none⟩] State.init = some st ∧
      st.surf ≠ none ∧
      ¬ (st.context ≠ none ∧ st.surf ≠ none) ∧
      ((st.context ≠ none ∨ st.surf ≠ none) → st.window ≠ none) :=
  ⟨_, rfl, by decide,
    display_exclusive [Op.set_videomode_opengl 640 480 0 ⟨some 1, some 1, none⟩,
                       Op.set_videomode_software 800 600 1 ⟨some 2, none, some 2⟩,
                       Op.set_videomode_software 320 200 1 ⟨none, none, none⟩] _ rfl⟩

theorem Y_unset_videomode_trace (st : State) :
    ∃ cs, (Y_unset_videomode st).trace = st.trace ++ cs ∧ cs.any failed_creation = false := by
  obtain ⟨ticks, quit, window, context, surf, vlist, trace⟩ := st
  rcases window with _ | win
  · exact ⟨[], by simp [Y_unset_videomode], rfl⟩
  rcases context with _ | ctx <;> rcases surf with _ | s
  · exact ⟨[Call.SDL_DestroyWindow win.id], by simp [Y_unset_videomode, call], rfl⟩
  · exact ⟨[Call.SDL_FreeSurface s.id, Call.SDL_DestroyWindow win.id],
      by simp [Y_unset_videomode, call], rfl⟩
  · exact ⟨[Call.SDL_GL_MakeCurrent win.id none, Call.SDL_GL_DeleteContext ctx,
      Call.SDL_DestroyWindow win.id], by simp [Y_unset_videomode, call], rfl⟩
  · exact ⟨[Call.SDL_GL_MakeCurrent win.id none, Call.SDL_GL_DeleteContext ctx,
      Call.SDL_FreeSurface s.id, Call.SDL_DestroyWindow win.id],
      by simp [Y_unset_videomode, call], rfl⟩

theorem Y_set_videomode_opengl_create_failure (w h fullscreen : Int) (env : Alloc) (st : State)
    (hw : w > 0) (hh : h > 0) (hpath : ¬ (st.window ≠ none ∧ st.context ≠ none)) :
    ∃ r st1, Y_set_videomode_opengl w h fullscreen env st = some (r, st1) ∧
      ((calls_since st st1).any failed_creation = true →
        r = 0 ∧ st1.window = st.window ∧ st1.context = st.context ∧ st1.surf = st.surf) := by
  obtain ⟨c1, c2, c3⟩ := Y_set_videomode_opengl_create w h fullscreen env st hw hh hpath
  rcases hwin : env.win with _ | win
  · exact ⟨_, _, c1 hwin, fun _ => ⟨rfl, rfl, rfl, rfl⟩⟩
  rcases hctx : env.ctx with _ | ctx
  · exact ⟨_, _, c2 win hwin hctx, fun _ => ⟨rfl, rfl, rfl, rfl⟩⟩
  refine ⟨_, _, c3 win ctx hwin hctx, fun hfail => ?_⟩
  exfalso
  obtain ⟨cs, hcs, hno⟩ := Y_unset_videomode_trace
    (call (Call.SDL_GL_CreateContext win (some ctx))
      (call (Call.SDL_CreateWindow w h true (decide (fullscreen ≠ 0)) (some win)) st))
  rw [calls_since_append _ _
    ([Call.SDL_CreateWindow w h true (decide (fullscreen ≠ 0)) (some win),
      Call.SDL_GL_CreateContext win (some ctx)] ++ cs ++ [Call.SDL_GL_MakeCurrent win (some ctx)])
    (by
      show (Y_unset_videomode _).trace ++ [_] = _
      rw [hcs]
      simp [call])] at hfail
  simp [failed_creation, hno] at hfail

theorem Y_set_videomode_software_create_failure (w h fullscreen : Int) (env : Alloc) (st : State)
    (hw : w > 0) (hh : h > 0) (hpath : ¬ (st.window ≠ none ∧ st.surf ≠ none)) :
    ∃ r st1, Y_set_videomode_software w h fullscreen env st = some (r, st1) ∧
      ((calls_since st st1).any failed_creation = true →
        r = 0 ∧ st1.window = st.window ∧ st1.context = st.context ∧ st1.surf = st.surf) := by
  obtain ⟨c1, c2, c3⟩ := Y_set_videomode_software_create w h fullscreen env st hw hh hpath
  rcases hwin : env.win with _ | win
  · exact ⟨_, _, c1 hwin, fun _ => ⟨rfl, rfl, rfl, rfl⟩⟩
  rcases hsf : env.surf with _ | id
  · exact ⟨_, _, c2 win hwin hsf, fun _ => ⟨rfl, rfl, rfl, rfl⟩⟩
  refine ⟨_, _, c3 win id hwin hsf, fun hfail => ?_⟩
  exfalso
  obtain ⟨cs, hcs, hno⟩ := Y_unset_videomode_trace
    (call (Call.SDL_CreateRGBSurface w h (some id))
      (call (Call.SDL_CreateWindow w h false (decide (fullscreen ≠ 0)) (some win)) st))
  rw [calls_since_append _ _
    ([Call.SDL_CreateWindow w h false (decide (fullscreen ≠ 0)) (some win),
      Call.SDL_CreateRGBSurface w h (some id)] ++ cs)
    (by
      show (Y_unset_videomode _).trace = _
      rw [hcs]
      simp [call])] at hfail
  simp [failed_creation, hno] at hfail

/-- C4, as stated, fails: in software mode at 640 x 480 the call
Y_set_videomode_software(800, 600, 0) during which SDL_CreateRGBSurface fails
returns 1, not 0, and the window is no longer as it was (it has the new size). -/
theorem software_resize_failure_returns_one :
    SoftwareActive software_640_480 ∧
    ∃ st1, Y_set_videomode_software 800 600 0 ⟨none, none, none⟩ software_640_480 =
        some (1, st1) ∧
      (calls_since software_640_480 st1).any failed_creation = true ∧
      st1.window ≠ software_640_480.window :=
  ⟨by decide, _, rfl, by decide, by decide⟩

/-- C4, amended: in each of the three modes, for w > 0 and h > 0, a call of
Y_set_videomode_opengl during which a creation fails returns 0 and leaves
window, context and surface as they were, and so does a call of
Y_set_videomode_software outside software mode; a call of
Y_set_videomode_software in software mode during which the replacement surface
cannot be created returns 1, keeps the window object, the context and the
surface, and gives the window the size (w, h). -/
theorem set_videomode_failure (w h fullscreen : Int) (env : Alloc) (st : State)
    (hw : w > 0) (hh : h > 0) (hmode : Unset st ∨ HardwareActive st ∨ SoftwareActive st) :
    (∃ r st1, Y_set_videomode_opengl w h fullscreen env st = some (r, st1) ∧
      ((calls_since st st1).any failed_creation = true →
        r = 0 ∧ st1.window = st.window ∧ st1.context = st.context ∧ st1.surf = st.surf)) ∧
    (∃ r st1, Y_set_videomode_software w h fullscreen env st = some (r, st1) ∧
      ((calls_since st st1).any failed_creation = true →
        (¬ SoftwareActive st →
          r = 0 ∧ st1.window = st.window ∧ st1.context = st.context ∧ st1.surf = st.surf) ∧
        (SoftwareActive st →
          r = 1 ∧ st1.window.map SDL_Window.id = st.window.map SDL_Window.id ∧
          st1.window.map (fun x => (x.w, x.h)) = some (w, h) ∧
          st1.context = st.context ∧ st1.surf = st.surf))) := by
  constructor
  · by_cases hpath : st.window ≠ none ∧ st.context ≠ none
    · obtain ⟨win, hwin⟩ := Option.ne_none_iff_exists'.1 hpath.1
      obtain ⟨st2, h1, h1r, _, _, _⟩ :=
        Y_set_videomode_opengl_resize w h fullscreen env st win hw hh hwin hpath.2
      refine ⟨1, st2, h1, fun hfail => ?_⟩
      exfalso
      have hs := (Y_resize_window_failure w h fullscreen env st st2 1 h1r hfail).1
      rcases hmode with hm | hm | hm
      · exact hpath.1 hm.1
      · exact hs hm.2.2
      · exact hpath.2 hm.2.1
    · exact Y_set_videomode_opengl_create_failure w h fullscreen env st hw hh hpath
  · by_cases hpath : st.window ≠ none ∧ st.surf ≠ none
    · obtain ⟨win, hwin⟩ := Option.ne_none_iff_exists'.1 hpath.1
      obtain ⟨st2, h1, h1r, h2, h3, h4⟩ :=
        Y_set_videomode_software_resize w h fullscreen env st win hw hh hwin hpath.2
      refine ⟨1, st2, h1, fun hfail => ⟨fun hns => ?_, fun _ => ⟨rfl, ?_, ?_, h2, ?_⟩⟩⟩
      · exfalso
        rcases hmode with hm | hm | hm
        · exact hpath.1 hm.1
        · exact hpath.2 hm.2.2
        · exact hns hm
      · rw [h4, hwin]; rfl
      · rw [h4]; rfl
      · rw [h3]
        exact resized_surf_of_failure w h env st.surf
          (Y_resize_window_failure w h fullscreen env st st2 1 h1r hfail).2
    · obtain ⟨r, st1, h1, h2⟩ :=
        Y_set_videomode_software_create_failure w h fullscreen env st hw hh hpath
      refine ⟨r, st1, h1, fun hfail => ⟨fun _ => h2 hfail, fun hm => ?_⟩⟩
      exact absurd ⟨hm.1, hm.2.2⟩ hpath

theorem set_videomode_failure_witness :
    (∃ r st1, Y_set_videomode_opengl 640 480 0 ⟨some 7, none, none⟩ software_640_480 =
        some (r, st1) ∧
      ((calls_since software_640_480 st1).any failed_creation = true →
        r = 0 ∧ st1.window = software_640_480.window ∧
        st1.context = software_640_480.context ∧ st1.surf = software_640_480.surf)) ∧
    (∃ r st1, Y_set_videomode_software 640 480 0 ⟨some 7, none, none⟩ software_640_480 =
        some (r, st1) ∧
      ((calls_since software_640_480 st1).any failed_creation = true →
        (¬ SoftwareActive software_640_480 →
          r = 0 ∧ st1.window = software_640_480.window ∧
          st1.context = software_640_480.context ∧ st1.surf = software_640_480.surf) ∧
        (SoftwareActive software_640_480 →
          r = 1 ∧
          st1.window.map SDL_Window.id = software_640_480.window.map SDL_Window.id ∧
          st1.window.map (fun x => (x.w, x.h)) = some (640, 480) ∧
          st1.context = software_640_480.context ∧ st1.surf = software_640_480.surf))) :=
  set_videomode_failure 640 480 0 ⟨some 7, none, none⟩ software_640_480 (by decide) (by decide)
    (Or.inr (Or.inr (by decide)))

/-- C8: in software mode with surface s, for a requested size (w2, h2) other
than the size of s with w2 > 0 and h2 > 0, Y_set_videomode_software returns 1
and leaves a live surface whose palette is the palette of s: the replacement of
size (w2, h2) when SDL could create it, the old surface s when it could not. -/
theorem resize_keeps_palette (w2 h2 fullscreen : Int) (env : Alloc) (st : State)
    (s : SDL_Surface) (hmode : SoftwareActive st) (hs : st.surf = some s)
    (hne : (w2, h2) ≠ (s.w, s.h)) (hw : w2 > 0) (hh : h2 > 0) :
    ∃ st1 s1, Y_set_videomode_software w2 h2 fullscreen env st = some (1, st1) ∧
      st1.surf = some s1 ∧ s1.palette = s.palette ∧
      (∀ id, env.surf = some id →
        s1 = { id := id, w := w2, h := h2, palette := s.palette }) ∧
      (env.surf = none → s1 = s) := by
  obtain ⟨win, hwin⟩ := Option.ne_none_iff_exists'.1 hmode.1
  obtain ⟨st1, h1, _, _, h3, _⟩ :=
    Y_set_videomode_software_resize w2 h2 fullscreen env st win hw hh hwin hmode.2.2
  have hsz : s.w ≠ w2 ∨ s.h ≠ h2 := by
    by_contra hc
    push_neg at hc
    exact hne (by rw [hc.1, hc.2])
  rw [hs] at h3
  rcases hsf : env.surf with _ | id
  · refine ⟨st1, s, h1, ?_, rfl, fun id hid => by simp at hid, fun _ => rfl⟩
    rw [h3]
    exact resized_surf_of_failure w2 h2 env (some s) hsf
  · refine ⟨st1, { id := id, w := w2, h := h2, palette := s.palette }, h1, ?_, rfl,
      fun id1 hid => ?_, fun hn => by simp at hn⟩
    · rw [h3]
      simp only [resized_surf, hsz, if_true, hsf]
    · simp only [Option.some.injEq] at hid
      rw [hid]

theorem resize_keeps_palette_witness :
    ∃ st1 s1, Y_set_videomode_software 800 600 0 ⟨none, none, some 2⟩ software_640_480 =
        some (1, st1) ∧
      st1.surf = some s1 ∧ s1.palette = SDL_AllocPalette ∧
      (∀ id, (some 2 : Option Nat) = some id →
        s1 = { id := id, w := 800, h := 600, palette := SDL_AllocPalette }) ∧
      ((some 2 : Option Nat) = none →
        s1 = { id := 1, w := 640, h := 480, palette := SDL_AllocPalette }) :=
  resize_keeps_palette 800 600 0 ⟨none, none, some 2⟩ software_640_480
    { id := 1, w := 640, h := 480, palette := SDL_AllocPalette } (by decide) rfl (by decide)
    (by decide) (by decide)

/-! ## Event pump and frame loop: theorems -/

theorem handle_event_ticks (cp866_utoc : Int → Int) (ev : SDL_Event) (st : State) :
    (handle_event cp866_utoc ev st).ticks = st.ticks := by
  unfold handle_event
  split
  · rfl
  · unfold window_event_handler
    split_ifs
    · split <;> rfl
    · rfl
  · rfl
  · rfl
  · split
    · dsimp only
      split_ifs <;> rfl
    · rfl
  · rfl

theorem handle_event_no_act (cp866_utoc : Int → Int) (ev : SDL_Event) (st : State) :
    (handle_event cp866_utoc ev st).trace.count Call.G_act = st.trace.count Call.G_act := by
  unfold handle_event
  split
  · rfl
  · unfold window_event_handler
    split_ifs
    · split <;> simp [call, ERR_quit, List.count_append]
    · rfl
  · simp [call, List.count_append]
  · simp [call, List.count_append]
  · split
    · dsimp only
      split_ifs <;> simp [call, List.count_append]
    · rfl
  · rfl

theorem poll_events_ticks (cp866_utoc : Int → Int) (events : List SDL_Event) (st : State) :
    (poll_events cp866_utoc events st).ticks = st.ticks := by
  induction events generalizing st with
  | nil => rfl
  | cons ev queue ih => rw [poll_events, ih, handle_event_ticks]

theorem poll_events_no_act (cp866_utoc : Int → Int) (events : List SDL_Event) (st : State) :
    (poll_events cp866_utoc events st).trace.count Call.G_act = st.trace.count Call.G_act := by
  induction events generalizing st with
  | nil => rfl
  | cons ev queue ih => rw [poll_events, ih, handle_event_no_act]

/-- C1, as stated, fails: with DELAY = 50, ticks = 0 and the timestamp 50 the
elapsed time equals DELAY, yet step runs no G_act and leaves ticks at 0; and for
no threshold DELAY below 2 ^ 32 does an elapsed time equal to DELAY run G_act. -/
theorem step_at_threshold_skips :
    ((50 % 2 ^ 32 + 2 ^ 32 - State.init.ticks % 2 ^ 32) % 2 ^ 32 ≥ 50 ∧
      (step 50 (fun _ => -1) [] 50 State.init).trace.count Call.G_act =
        State.init.trace.count Call.G_act ∧
      (step 50 (fun _ => -1) [] 50 State.init).ticks = State.init.ticks ∧
      State.init.ticks ≠ 50 % 2 ^ 32) ∧
    (∀ DELAY : Nat, DELAY < 2 ^ 32 →
      (DELAY % 2 ^ 32 + 2 ^ 32 - State.init.ticks % 2 ^ 32) % 2 ^ 32 ≥ DELAY ∧
      (step DELAY (fun _ => -1) [] DELAY State.init).trace.count Call.G_act =
        State.init.trace.count Call.G_act) := by
  refine ⟨by decide, fun DELAY hD => ?_⟩
  have h0 : State.init.ticks = 0 := rfl
  have he : (DELAY % 2 ^ 32 + 2 ^ 32 - State.init.ticks % 2 ^ 32) % 2 ^ 32 = DELAY := by
    rw [h0]
    omega
  refine ⟨by omega, ?_⟩
  have hc : ¬ ((DELAY % 2 ^ 32 + 2 ^ 32 -
      (call Call.MUS_update (poll_events (fun _ => -1) [] State.init)).ticks % 2 ^ 32) % 2 ^ 32
        > DELAY) := by
    have h1 : (call Call.MUS_update (poll_events (fun _ => -1) [] State.init)).ticks = 0 := rfl
    rw [h1]
    omega
  simp only [step, hc, if_false]
  rfl

/-- C1, amended: with t the timestamp and elapsed = t - ticks as an unsigned
32-bit difference, if elapsed > DELAY then step runs G_act exactly once and
ticks becomes t; if elapsed <= DELAY then step runs no G_act and ticks is
unchanged. -/
theorem step_cadence (DELAY : Nat) (cp866_utoc : Int → Int) (events : List SDL_Event)
    (now : Nat) (st : State) :
    ((now % 2 ^ 32 + 2 ^ 32 - st.ticks % 2 ^ 32) % 2 ^ 32 > DELAY →
      (step DELAY cp866_utoc events now st).trace.count Call.G_act =
        st.trace.count Call.G_act + 1 ∧
      (step DELAY cp866_utoc events now st).ticks = now % 2 ^ 32) ∧
    ((now % 2 ^ 32 + 2 ^ 32 - st.ticks % 2 ^ 32) % 2 ^ 32 ≤ DELAY →
      (step DELAY cp866_utoc events now st).trace.count Call.G_act =
        st.trace.count Call.G_act ∧
      (step DELAY cp866_utoc events now st).ticks = st.ticks) := by
  have ht := poll_events_ticks cp866_utoc events st
  have hc := poll_events_no_act cp866_utoc events st
  constructor
  · intro h
    have h1 : (now % 2 ^ 32 + 2 ^ 32 -
        (call Call.MUS_update (poll_events cp866_utoc events st)).ticks % 2 ^ 32) % 2 ^ 32
          > DELAY := by
      simpa [call, ht] using h
    simp only [step, h1, if_true]
    simp [call, List.count_append, hc]
  · intro h
    have h1 : ¬ ((now % 2 ^ 32 + 2 ^ 32 -
        (call Call.MUS_update (poll_events cp866_utoc events st)).ticks % 2 ^ 32) % 2 ^ 32
          > DELAY) := by
      simpa [call, ht] using h
    simp only [step, h1, if_false]
    simp [call, List.count_append, hc, ht]

theorem step_cadence_witness :
    ((step 50 (fun _ => -1) [SDL_Event.SDL_KEYDOWN 4] 51 State.init).trace.count Call.G_act =
        State.init.trace.count Call.G_act + 1 ∧
      (step 50 (fun _ => -1) [SDL_Event.SDL_KEYDOWN 4] 51 State.init).ticks = 51 % 2 ^ 32) ∧
    ((step 50 (fun _ => -1) [SDL_Event.SDL_KEYDOWN 4] 50 State.init).trace.count Call.G_act =
        State.init.trace.count Call.G_act ∧
      (step 50 (fun _ => -1) [SDL_Event.SDL_KEYDOWN 4] 50 State.init).ticks =
        State.init.ticks) :=
  ⟨(step_cadence 50 (fun _ => -1) [SDL_Event.SDL_KEYDOWN 4] 51 State.init).1 (by decide),
   (step_cadence 50 (fun _ => -1) [SDL_Event.SDL_KEYDOWN 4] 50 State.init).2 (by decide)⟩

/-- C9, as stated, fails: scan code 50 has no case in sdl_to_key, and for the
key-down event with that scan code poll_events calls I_press and GM_key, both
with KEY_UNKNOWN. -/
theorem poll_events_unmapped_key_is_forwarded :
    sdl_to_key 50 = Key.KEY_UNKNOWN ∧
    (poll_events (fun _ => -1) [SDL_Event.SDL_KEYDOWN 50] State.init).trace =
      [Call.I_press Key.KEY_UNKNOWN true, Call.GM_key Key.KEY_UNKNOWN true] := by
  decide

/-- C9, amended: for a key down or up event whose scan code sdl_to_key sends to
KEY_UNKNOWN, poll_events makes exactly two calls for that event, I_press and
then GM_key, both with KEY_UNKNOWN and the down/up flag, changes nothing else,
and goes on with the rest of the queue. -/
theorem poll_events_unmapped_key (cp866_utoc : Int → Int) (scancode : Int)
    (queue : List SDL_Event) (st : State) (h : sdl_to_key scancode = Key.KEY_UNKNOWN) :
    poll_events cp866_utoc (SDL_Event.SDL_KEYDOWN scancode :: queue) st =
      poll_events cp866_utoc queue
        { st with trace := st.trace ++
          [Call.I_press Key.KEY_UNKNOWN true, Call.GM_key Key.KEY_UNKNOWN true] } ∧
    poll_events cp866_utoc (SDL_Event.SDL_KEYUP scancode :: queue) st =
      poll_events cp866_utoc queue
        { st with trace := st.trace ++
          [Call.I_press Key.KEY_UNKNOWN false, Call.GM_key Key.KEY_UNKNOWN false] } := by
  constructor <;> simp [poll_events, handle_event, call, h]

theorem poll_events_unmapped_key_witness :
    poll_events (fun _ => -1) [SDL_Event.SDL_KEYDOWN 50] State.init =
      poll_events (fun _ => -1) []
        { State.init with trace := State.init.trace ++
          [Call.I_press Key.KEY_UNKNOWN true, Call.GM_key Key.KEY_UNKNOWN true] } ∧
    poll_events (fun _ => -1) [SDL_Event.SDL_KEYUP 50] State.init =
      poll_events (fun _ => -1) []
        { State.init with trace := State.init.trace ++
          [Call.I_press Key.KEY_UNKNOWN false, Call.GM_key Key.KEY_UNKNOWN false] } :=
  poll_events_unmapped_key (fun _ => -1) 50 [] State.init (by decide)

end Doom2D
